import Mathlib

/-!
# Defold `dlib/profile.h`, `script/script.cpp` and `script/script_msg.cpp`: a shallow embedding

The timed-region guard `dmProfile::ProfileScope`, the `DM_PROFILE` call-site
cache, `dmScript::RegisterDDFType` and the message library of the script
module (`msg.url`, `msg.post`, the URL userdata), transcribed from the C++
sources, with the properties the specification states about them.  The frame
controller of the profiler, of which only the declarations are in the
sources, is modelled from the specification.

Conventions.
* A pointer is an address (`Nat`); `0` is the null pointer.  `Scope` and
  `Sample` records live in two separate address spaces, as their C++ types do.
* `int32_t` values are `Int`, `uint32_t`/`uint64_t` values are `Nat`; every
  conversion and every wrapping operation is written out (`toInt32`,
  `toUInt32`, `toUInt64`).
* The non-Windows branch of the clock is embedded (`gettimeofday`), on an LP64
  platform: `time_t` and `suseconds_t` are 64 bits wide.
* Results of calls whose body is outside `profile.h` (`AllocateSample`, the
  clock) are arguments of the embedded function; the calls themselves are
  appended to `World.calls` in program order.
* C functions that run on a Lua state are computations in `Lua`.  The
  assertions on the stack height at the end of `URL_new` and `InitializeMsg`
  are not executed, what they assert is proved; the assertions of `Msg_Post`
  are executed: a null callback, a null context or a changed stack height
  ends the process.
-/

namespace dmProfile

/-! ## Machine integers -/

/-- Conversion of an integer value to `uint64_t`. -/
def toUInt64 (x : Int) : Nat := (x % 2 ^ 64).toNat

/-- Conversion of an unsigned value to `uint32_t` (the cast `(uint32_t) x`). -/
def toUInt32 (x : Nat) : Nat := x % 2 ^ 32

/-- Conversion of an integer value to `int32_t` (the cast `(int32_t) x`,
two's complement). -/
def toInt32 (x : Int) : Int := (x + 2 ^ 31) % 2 ^ 32 - 2 ^ 31

/-- Subtraction of two `uint64_t` values, `a - b` in C. -/
def sub64 (a b : Nat) : Nat := toUInt64 ((a : Int) - (b : Int))

/-- Store into the bit-field `uint32_t m_Elapsed : 28`. -/
def toBits28 (x : Nat) : Nat := x % 2 ^ 28

/-! ## Data model (`profile.h` lines 70-97, 218-222) -/

/-- Profile scope, `struct Scope`. -/
structure Scope where
  /-- Scope name -/
  m_Name : String
  /-- Total time spent in scope (in ticks), `int32_t` -/
  m_Elapsed : Int
  /-- Scope index, `uint16_t` -/
  m_Index : Nat
  /-- Occurrences of this scope, `int32_t` -/
  m_Count : Int
  deriving DecidableEq, Repr

/-- Profile sample, `struct Sample`. -/
structure Sample where
  /-- Sample name -/
  m_Name : String
  /-- Sampled within scope, a `Scope*` -/
  m_Scope : Nat
  /-- Start time in ticks, `uint32_t` -/
  m_Start : Nat
  /-- Elapsed time in ticks, `uint32_t : 28` -/
  m_Elapsed : Nat
  /-- The remaining four bits of the word, `uint32_t : 4` -/
  m_Reserved : Nat
  deriving DecidableEq, Repr

/-- The `struct timeval` filled in by `gettimeofday`. -/
structure timeval where
  tv_sec : Int
  tv_usec : Int
  deriving DecidableEq, Repr

/-- Calls that leave `profile.h`, recorded in program order. -/
inductive Call where
  | AllocateSample
  | gettimeofday
  deriving DecidableEq, Repr

/-- The memory the guard works on: the `Scope` records, the `Sample` records,
the global `g_BeginTime` (`uint32_t`) and the record of outside calls. -/
structure World where
  scopes : Nat → Scope
  samples : Nat → Sample
  g_BeginTime : Nat
  calls : List Call

/-- The guard object, `struct ProfileScope`. -/
structure ProfileScope where
  /-- Start tick, `uint64_t` -/
  m_Start : Nat
  /-- The owned sample, a `Sample*` -/
  m_Sample : Nat
  /-- The scope the guard is bound to, a `Scope*` -/
  m_Scope : Nat
  deriving DecidableEq, Repr

/-- Write through a pointer: the record at address `p` becomes `v`. -/
def store {α : Type} (mem : Nat → α) (p : Nat) (v : α) : Nat → α :=
  fun q => if q = p then v else mem q

/-- The expression `tv.tv_sec * 1000000 + tv.tv_usec`, assigned to a
`uint64_t`. -/
def ticks (tv : timeval) : Nat := toUInt64 (tv.tv_sec * 1000000 + tv.tv_usec)

/-- Modelled from the spec: `dmAtomicAdd32` of `dlib/atomic.h`, which is not
among the sources; the specification calls it an atomic fetch-add on the
32-bit accumulator.  The value stored back is given, for one thread. -/
def dmAtomicAdd32 (x : Int) (v : Int) : Int := toInt32 (x + v)

/-- Modelled from the spec: `dmAtomicIncrement32` of `dlib/atomic.h`, which is
not among the sources; the specification calls it an atomic increment of the
32-bit invocation count.  The value stored back is given, for one thread. -/
def dmAtomicIncrement32 (x : Int) : Int := toInt32 (x + 1)

/-! ## The guard (`profile.h` lines 223-256) -/

/-- The constructor `ProfileScope(Scope* scope, const char* name)`.
`s` is the pointer `AllocateSample()` returned and `tv` is what
`gettimeofday` stored. -/
def ProfileScope.construct (w : World) (scope : Nat) (name : String) (s : Nat)
    (tv : timeval) : ProfileScope × World :=
  -- Sample*s = AllocateSample();
  let w1 : World := { w with calls := w.calls ++ [Call.AllocateSample] }
  -- m_Scope = scope;   s->m_Name = name;
  let w2 : World := { w1 with samples := store w1.samples s { w1.samples s with m_Name := name } }
  -- s->m_Scope = scope;   m_Sample = s;
  let w3 : World := { w2 with samples := store w2.samples s { w2.samples s with m_Scope := scope } }
  -- gettimeofday(&tv, 0);   m_Start = tv.tv_sec * 1000000 + tv.tv_usec;
  let w4 : World := { w3 with calls := w3.calls ++ [Call.gettimeofday] }
  ({ m_Start := ticks tv, m_Sample := s, m_Scope := scope }, w4)

/-- The local `diff` of the destructor: `end - m_Start` in `uint64_t`. -/
def ProfileScope.diff (g : ProfileScope) (tv : timeval) : Nat :=
  sub64 (ticks tv) g.m_Start

/-- The destructor `~ProfileScope()`.  `tv` is what `gettimeofday` stored. -/
def ProfileScope.destruct (w : World) (g : ProfileScope) (tv : timeval) : World :=
  -- gettimeofday(&tv, 0);   end = tv.tv_sec * 1000000 + tv.tv_usec;
  let w1 : World := { w with calls := w.calls ++ [Call.gettimeofday] }
  -- uint64_t diff = end - m_Start;
  let diff := g.diff tv
  -- m_Sample->m_Start = (uint32_t) (m_Start - g_BeginTime);
  let s1 : Sample := { w1.samples g.m_Sample with
    m_Start := toUInt32 (sub64 g.m_Start w1.g_BeginTime) }
  let w2 : World := { w1 with samples := store w1.samples g.m_Sample s1 }
  -- m_Sample->m_Elapsed = diff;
  let s2 : Sample := { w2.samples g.m_Sample with m_Elapsed := toBits28 diff }
  let w3 : World := { w2 with samples := store w2.samples g.m_Sample s2 }
  -- dmAtomicAdd32(&m_Scope->m_Elapsed, (int32_t) diff);
  let c1 : Scope := { w3.scopes g.m_Scope with
    m_Elapsed := dmAtomicAdd32 (w3.scopes g.m_Scope).m_Elapsed (toInt32 (diff : Int)) }
  let w4 : World := { w3 with scopes := store w3.scopes g.m_Scope c1 }
  -- dmAtomicIncrement32(&m_Scope->m_Count);
  let c2 : Scope := { w4.scopes g.m_Scope with
    m_Count := dmAtomicIncrement32 (w4.scopes g.m_Scope).m_Count }
  { w4 with scopes := store w4.scopes g.m_Scope c2 }

/-! ## Sequences of guard constructions and destructions -/

/-- One step of a thread that uses guards: a guard is constructed, or the
`i`-th guard that is alive (most recent first) is destroyed. -/
inductive Event where
  | construct (scope : Nat) (name : String) (s : Nat) (tv : timeval)
  | destroy (i : Nat) (tv : timeval)
  deriving DecidableEq, Repr

/-- Execute one event on the memory and the guards that are alive. -/
def step (st : World × List ProfileScope) : Event → World × List ProfileScope
  | Event.construct scope name s tv =>
    ((ProfileScope.construct st.1 scope name s tv).2,
      (ProfileScope.construct st.1 scope name s tv).1 :: st.2)
  | Event.destroy i tv =>
    match st.2.get? i with
    | some g => (ProfileScope.destruct st.1 g tv, st.2.eraseIdx i)
    | none => st

/-- Execute a sequence of events. -/
def run (st : World × List ProfileScope) : List Event → World × List ProfileScope
  | [] => st
  | ev :: evs => run (step st ev) evs

/-- The number of guards a sequence of events constructs. -/
def constructions : List Event → Nat
  | [] => 0
  | Event.construct _ _ _ _ :: evs => constructions evs + 1
  | Event.destroy _ _ :: evs => constructions evs

/-- The number of destructor runs in a sequence of events. -/
def destructions : List Event → Nat
  | [] => 0
  | Event.construct _ _ _ _ :: evs => destructions evs
  | Event.destroy _ _ :: evs => destructions evs + 1

/-- An event of a run in which every guard is bound to the scope at `p` and
every destructor measures `E` ticks: a construction names `p`, a destruction
picks a guard that is alive, bound to `p`, whose `diff` is `E`. -/
def eventOn (p E : Nat) (live : List ProfileScope) : Event → Bool
  | Event.construct scope _ _ _ => decide (scope = p)
  | Event.destroy i tv =>
    match live.get? i with
    | some g => decide (g.m_Scope = p) && decide (g.diff tv = E)
    | none => false

/-- Every event of the run from `st` satisfies `eventOn p E`. -/
def allOn (p E : Nat) (st : World × List ProfileScope) : List Event → Bool
  | [] => true
  | ev :: evs => eventOn p E st.2 ev && allOn p E (step st ev) evs

/-- The event list of `n` guards on the scope at `p`, one after the other, each
constructed and destroyed at tick 0. -/
def burst (p : Nat) : Nat → List Event
  | 0 => []
  | n + 1 => Event.construct p "burst" 1 ⟨0, 0⟩ :: Event.destroy 0 ⟨0, 0⟩ :: burst p n

/-- Three guards on the scope at address 1, each measuring 5 ticks: two nested
ones, then a third. -/
def threeGuards : List Event :=
  [Event.construct 1 "outer" 1 ⟨0, 10⟩, Event.construct 1 "inner" 2 ⟨0, 10⟩,
    Event.destroy 0 ⟨0, 15⟩, Event.destroy 0 ⟨0, 15⟩,
    Event.construct 1 "next" 3 ⟨0, 20⟩, Event.destroy 0 ⟨0, 25⟩]

/-- A guard on the scope at address 1 nested in another guard on the same
scope: outer constructed, inner constructed, inner destroyed, outer destroyed. -/
def nestedGuards : List Event :=
  [Event.construct 1 "outer" 1 ⟨0, 0⟩, Event.construct 1 "inner" 2 ⟨0, 1⟩,
    Event.destroy 0 ⟨0, 2⟩, Event.destroy 0 ⟨0, 3⟩]

/-- A memory in which every record is zero and no call has been made. -/
def World.zero : World where
  scopes := fun _ => { m_Name := "", m_Elapsed := 0, m_Index := 0, m_Count := 0 }
  samples := fun _ => { m_Name := "", m_Scope := 0, m_Start := 0, m_Elapsed := 0, m_Reserved := 0 }
  g_BeginTime := 0
  calls := []

/-! ## The instrumentation statement `DM_PROFILE` (`profile.h` lines 47-53) -/

/-- One execution of a `DM_PROFILE(scope_name, name)` statement: the call site
it stands at (each site owns one function-local `static Scope*`), its two
arguments, and what `AllocateSample` and the clock hand to the guard. -/
structure Execution where
  site : Nat
  scope_name : String
  name : String
  s : Nat
  tv : timeval
  deriving DecidableEq, Repr

/-- What a thread running `DM_PROFILE` statements works on.  `registry` is the
state behind `AllocateScope`, `statics` holds the `static Scope*` of every call
site, `allocated` records each `AllocateScope` call (site, pointer returned)
and `guards` each guard constructed (site, guard), both in program order. -/
structure Sites (σ : Type) where
  registry : σ
  world : World
  statics : Nat → Nat
  allocated : List (Nat × Nat)
  guards : List (Nat × ProfileScope)

/-- The first two statements of `DM_PROFILE`: the static of the site is
filled by `AllocateScope(#scope_name)` when it is null. -/
def DM_PROFILE.cache {σ : Type} (AllocateScope : σ → String → Nat × σ)
    (st : Sites σ) (x : Execution) : Sites σ :=
  -- static dmProfile::Scope* scope_LINE = 0;   if (scope_LINE == 0)
  if st.statics x.site = 0 then
    -- scope_LINE = dmProfile::AllocateScope(#scope_name);
    { st with
      registry := (AllocateScope st.registry x.scope_name).2
      statics := store st.statics x.site (AllocateScope st.registry x.scope_name).1
      allocated := st.allocated ++ [(x.site, (AllocateScope st.registry x.scope_name).1)] }
  else st

/-- The statement `DM_PROFILE(scope_name, name)`.  `AllocateScope` is declared
in `profile.h` and defined elsewhere: it is an argument, a function of the
registry state and the name that returns a pointer and the next state. -/
def DM_PROFILE {σ : Type} (AllocateScope : σ → String → Nat × σ)
    (st : Sites σ) (x : Execution) : Sites σ :=
  let st1 := DM_PROFILE.cache AllocateScope st x
  -- dmProfile::ProfileScope profile_scope_LINE(scope_LINE, name);
  let r := ProfileScope.construct st1.world (st1.statics x.site) x.name x.s x.tv
  { st1 with world := r.2, guards := st1.guards ++ [(x.site, r.1)] }

/-- Execute a sequence of `DM_PROFILE` statements. -/
def runSites {σ : Type} (AllocateScope : σ → String → Nat × σ)
    (st : Sites σ) : List Execution → Sites σ
  | [] => st
  | x :: xs => runSites AllocateScope (DM_PROFILE AllocateScope st x) xs

/-- The state before any `DM_PROFILE` statement has run: every static is null. -/
def Sites.start {σ : Type} (registry : σ) (world : World) : Sites σ where
  registry := registry
  world := world
  statics := fun _ => 0
  allocated := []
  guards := []

/-- The `AllocateScope` calls recorded for call site `c`. -/
def callsOf (c : Nat) (l : List (Nat × Nat)) : List (Nat × Nat) :=
  l.filter (fun e => decide (e.1 = c))

/-- What holds between the statics, the recorded `AllocateScope` calls and the
recorded guards after any number of `DM_PROFILE` statements. -/
def Sites.Consistent {σ : Type} (st : Sites σ) : Prop :=
  (∀ c, st.statics c = 0 → callsOf c st.allocated = []) ∧
  (∀ c, st.statics c ≠ 0 → callsOf c st.allocated = [(c, st.statics c)]) ∧
  (∀ c g, (c, g) ∈ st.guards → st.statics c ≠ 0 ∧ g.m_Scope = st.statics c)

/-- Following the claim: the executions of a sequence at which a call site is
executed for the first time, in order; the sites in `seen` have been executed
before. -/
def firstExecutions : List Nat → List Execution → List Execution
  | _, [] => []
  | seen, x :: xs =>
    if x.site ∈ seen then firstExecutions seen xs
    else x :: firstExecutions (x.site :: seen) xs

/-- Following the claim: one call `AllocateScope(#scope_name)` for each
execution of the list, in order, each on the registry the call before it
left: the call sites with the pointers returned, and the registry after the
last call. -/
def allocateEach {σ : Type} (AllocateScope : σ → String → Nat × σ) (registry : σ) :
    List Execution → List (Nat × Nat) × σ
  | [] => ([], registry)
  | x :: xs =>
    ((x.site, (AllocateScope registry x.scope_name).1)
        :: (allocateEach AllocateScope (AllocateScope registry x.scope_name).2 xs).1,
      (allocateEach AllocateScope (AllocateScope registry x.scope_name).2 xs).2)

/-- An `AllocateScope` together with a counter of its calls: the registry is
paired with the number of calls made so far. -/
def countCalls {σ : Type} (AllocateScope : σ → String → Nat × σ) :
    σ × Nat → String → Nat × (σ × Nat) :=
  fun r name => ((AllocateScope r.1 name).1, ((AllocateScope r.1 name).2, r.2 + 1))

/-- A registry that hands out the addresses 1, 2, 3, ... in turn. -/
def countingAllocateScope (n : Nat) (_ : String) : Nat × Nat := (n + 1, n + 1)

/-- Three executions at two call sites (10 and 20) that name the same scope;
site 10 is executed twice. -/
def sharedNameRun : List Execution :=
  [⟨10, "Update", "first", 1, ⟨0, 0⟩⟩, ⟨20, "Update", "second", 2, ⟨0, 1⟩⟩,
    ⟨10, "Update", "third", 3, ⟨0, 2⟩⟩]

end dmProfile

namespace dmScript

/-! ## `script.cpp`: the DDF descriptor table -/

/-- The fields of `dmDDF::Descriptor` that the script library reads. -/
structure Descriptor where
  m_Name : String
  m_Size : Nat
  deriving DecidableEq, Repr

/-- The operations of `dmHashTable64` (`dlib/hashtable.h`, not among the
sources) that `script.cpp` and `script_msg.cpp` call, over a table type `T`
with values `V`. -/
structure HashTableOps (T V : Type) where
  SetCapacity : T → Nat → Nat → T
  Full : T → Bool
  Put : T → Nat → V → T
  Get : T → Nat → Option V

/-- The script context, `struct Context`: the descriptor table. -/
structure Context (T : Type) where
  m_Descriptors : T

/-- The function `NewContext`: a fresh table sized by `SetCapacity(17, 128)`. -/
def NewContext {T : Type} (ops : HashTableOps T Descriptor) (fresh : T) : Context T :=
  { m_Descriptors := ops.SetCapacity fresh 17 128 }

/-- The function `RegisterDDFType`.  Returns the result, the context afterwards
and the lines passed to `dmLogError`. -/
def RegisterDDFType {T : Type} (ops : HashTableOps T Descriptor)
    (dmHashString64 : String → Nat) (context : Context T) (descriptor : Descriptor) :
    Bool × Context T × List String :=
  -- if (context->m_Descriptors.Full())
  if ops.Full context.m_Descriptors then
    -- dmLogError("Unable to register ddf type. Out of resources.");   return false;
    (false, context, ["Unable to register ddf type. Out of resources."])
  else
    -- context->m_Descriptors.Put(dmHashString64(descriptor->m_Name), descriptor);
    let table := ops.Put context.m_Descriptors (dmHashString64 descriptor.m_Name) descriptor
    -- return true;
    (true, { context with m_Descriptors := table }, [])

/-- The contract of the table operations that `RegisterDDFType` relies on:
after `Put` into a table that is not full the key holds the value, and no
other key changes. -/
def HashTableOps.Lawful {T V : Type} (ops : HashTableOps T V) : Prop :=
  (∀ t k v, ops.Full t = false → ops.Get (ops.Put t k v) k = some v) ∧
  (∀ t k v j, ops.Full t = false → j ≠ k → ops.Get (ops.Put t k v) j = ops.Get t j)

/-- A reference table: the entries as a function of the key, the number of
entries and the capacity. -/
structure RefTable (V : Type) where
  entries : Nat → Option V
  m_Count : Nat
  m_Capacity : Nat

/-- The table operations on the reference table. -/
def RefTable.ops (V : Type) : HashTableOps (RefTable V) V where
  SetCapacity := fun t _ capacity => { t with m_Capacity := capacity }
  Full := fun t => decide (t.m_Count = t.m_Capacity)
  Put := fun t k v =>
    { t with
      entries := fun j => if j = k then some v else t.entries j
      m_Count := if (t.entries k).isSome then t.m_Count else t.m_Count + 1 }
  Get := fun t k => t.entries k

/-- The reference table with no entry and no capacity. -/
def RefTable.empty (V : Type) : RefTable V where
  entries := fun _ => none
  m_Count := 0
  m_Capacity := 0

/-- A stand-in for `dmHashString64` on concrete inputs: the length of the name. -/
def lengthHash (name : String) : Nat := name.length

/-! ## The Lua state (`lua.h`, `lauxlib.h`)

Lua is an outside library; the part of its C API that `script_msg.cpp` calls is
written down from the Lua 5.1 reference manual and `lauxlib.c`.

* The stack of the running C function is a list, index 1 first.
* Tables and userdata blocks are objects with identity: a value holds a
  reference, the contents are in `lua_State.tables` and `lua_State.udata`.
  The registry and the table of globals are the tables `TableRef.registry` and
  `TableRef.globals`, reached through the pseudo-indices.
* A `lua_Number` is a double; only its bit pattern is kept and no arithmetic
  is embedded.  Conversions between numbers and strings are arguments
  (`Env.lua_str2number`, `Env.lua_number2str`).
* Not modelled: metatables of values other than full userdata (so table
  accesses are raw), memory errors, stack overflow, the position the library
  puts in front of error messages.
* A raised Lua error (`luaL_error`, a `longjmp`) ends the C function:
  `LuaResult.error` carries the message and the state at that point.
  `LuaResult.abort` is the end of the process: a failed `assert`, or the use
  of a null pointer.
-/

/-- The address type `dmMessage::URL` (`dlib/message.h`): socket, path and
fragment. -/
structure URL where
  m_Socket : Nat
  m_Path : Nat
  m_Fragment : Nat
  deriving DecidableEq, Repr

/-- A `lua_Number`, by its bit pattern. -/
structure LuaNumber where
  bits : Nat
  deriving DecidableEq, Repr

/-- A reference to a table: the registry, the table of globals, or a table
created by `lua_newtable`. -/
inductive TableRef where
  | registry
  | globals
  | heap (n : Nat)
  deriving DecidableEq, Repr

/-- A Lua value. -/
inductive LuaValue where
  | nil
  | boolean (b : Bool)
  | lightuserdata (p : Nat)
  | number (n : LuaNumber)
  | string (s : String)
  | table (t : TableRef)
  | cfunction (name : String)
  | userdata (block : Nat)
  | thread (ref : Nat)
  deriving DecidableEq, Repr

/-- A full userdata: the block, read as a `dmMessage::URL`, and its metatable. -/
structure Userdata where
  url : URL
  metatable : Option TableRef
  deriving DecidableEq, Repr

/-- A C pointer as `lua_touserdata` returns it: null, the address of a
userdata block, or the pointer held by a light userdata. -/
inductive Pointer where
  | null
  | block (ref : Nat)
  | light (p : Nat)
  deriving DecidableEq, Repr

/-- The result codes `dmMessage::Result` that `script_msg.cpp` names, and the
others. -/
inductive MsgResult where
  | RESULT_OK
  | RESULT_SOCKET_NOT_FOUND
  | RESULT_INVALID_SOCKET_NAME
  | RESULT_MALFORMED_URL
  | other (code : Int)
  deriving DecidableEq, Repr

/-- One call of `dmMessage::Post`: its six arguments. -/
structure Posted where
  sender : URL
  receiver : URL
  message_id : Nat
  descriptor : Option Descriptor
  data : List Nat
  data_size : Nat
  deriving DecidableEq, Repr

/-- The state threaded through the script library: the Lua state proper
(stack, tables, userdata blocks, the next free reference) and, beside it, the
calls made to `dmMessage::Post`, in order. -/
structure lua_State where
  stack : List LuaValue
  tables : TableRef → LuaValue → LuaValue
  udata : Nat → Userdata
  fresh : Nat
  posted : List Posted

/-- How a C function that runs on a Lua state ends: it returns, a Lua error is
raised, or the process ends there (a failed `assert`, a call or an access
through a null pointer). -/
inductive LuaResult (α : Type) where
  | ok (a : α) (L : lua_State)
  | error (msg : String) (L : lua_State)
  | abort (L : lua_State)

/-- A computation on a Lua state. -/
def Lua (α : Type) : Type := lua_State → LuaResult α

/-- Sequencing: a raised error, and the end of the process, skip what follows. -/
def Lua.bind {α β : Type} (m : Lua α) (f : α → Lua β) : Lua β :=
  fun L =>
    match m L with
    | LuaResult.ok a L1 => f a L1
    | LuaResult.error msg L1 => LuaResult.error msg L1
    | LuaResult.abort L1 => LuaResult.abort L1

instance : Monad Lua where
  pure := fun a L => LuaResult.ok a L
  bind := Lua.bind

/-- The state as it is now. -/
def getL : Lua lua_State := fun L => LuaResult.ok L L

/-- Replace the state. -/
def setL (L1 : lua_State) : Lua Unit := fun _ => LuaResult.ok () L1

/-- The end of the process: `assert` failed, or a null pointer was used. -/
def abort {α : Type} : Lua α := fun L => LuaResult.abort L

/-- The function `luaL_error` (and `lua_error`): raise an error. -/
def luaL_error {α : Type} (msg : String) : Lua α := fun L => LuaResult.error msg L

/-! ### Type tags and indices -/

def LUA_TNONE : Int := -1
def LUA_TNIL : Int := 0
def LUA_TBOOLEAN : Int := 1
def LUA_TLIGHTUSERDATA : Int := 2
def LUA_TNUMBER : Int := 3
def LUA_TSTRING : Int := 4
def LUA_TTABLE : Int := 5
def LUA_TFUNCTION : Int := 6
def LUA_TUSERDATA : Int := 7
def LUA_TTHREAD : Int := 8
def LUA_REGISTRYINDEX : Int := -10000
def LUA_GLOBALSINDEX : Int := -10002

/-- The stack position (0 first) of a stack index, when the index is valid. -/
def stackPos (L : lua_State) (idx : Int) : Option Nat :=
  if 0 < idx then
    if idx.toNat ≤ L.stack.length then some (idx.toNat - 1) else none
  else if idx < 0 ∧ (-idx).toNat ≤ L.stack.length then
    some (L.stack.length - (-idx).toNat)
  else none

/-- The value at an index (`index2adr`): a stack slot, the registry or the
table of globals; `none` when the index is not valid. -/
def index2adr (L : lua_State) (idx : Int) : Option LuaValue :=
  if idx = LUA_REGISTRYINDEX then some (LuaValue.table TableRef.registry)
  else if idx = LUA_GLOBALSINDEX then some (LuaValue.table TableRef.globals)
  else
    match stackPos L idx with
    | some i => L.stack.get? i
    | none => none

/-- The type tag of a value. -/
def LuaValue.tag : LuaValue → Int
  | LuaValue.nil => LUA_TNIL
  | LuaValue.boolean _ => LUA_TBOOLEAN
  | LuaValue.lightuserdata _ => LUA_TLIGHTUSERDATA
  | LuaValue.number _ => LUA_TNUMBER
  | LuaValue.string _ => LUA_TSTRING
  | LuaValue.table _ => LUA_TTABLE
  | LuaValue.cfunction _ => LUA_TFUNCTION
  | LuaValue.userdata _ => LUA_TUSERDATA
  | LuaValue.thread _ => LUA_TTHREAD

/-- The name `lua_typename` gives for the type of a value (`no value` for a
non-valid index). -/
def typeName : Option LuaValue → String
  | none => "no value"
  | some LuaValue.nil => "nil"
  | some (LuaValue.boolean _) => "boolean"
  | some (LuaValue.lightuserdata _) => "userdata"
  | some (LuaValue.number _) => "number"
  | some (LuaValue.string _) => "string"
  | some (LuaValue.table _) => "table"
  | some (LuaValue.cfunction _) => "function"
  | some (LuaValue.userdata _) => "userdata"
  | some (LuaValue.thread _) => "thread"

/-- The function `lua_gettop`. -/
def lua_gettop (L : lua_State) : Int := (L.stack.length : Int)

/-- The function `lua_type`. -/
def lua_type (L : lua_State) (idx : Int) : Int :=
  match index2adr L idx with
  | some v => v.tag
  | none => LUA_TNONE

/-- The function `lua_isnil`. -/
def lua_isnil (L : lua_State) (idx : Int) : Bool := decide (lua_type L idx = LUA_TNIL)

/-- The function `lua_istable`. -/
def lua_istable (L : lua_State) (idx : Int) : Bool := decide (lua_type L idx = LUA_TTABLE)

/-- The function `lua_touserdata`: the block address of a full userdata, the
pointer of a light userdata, otherwise null. -/
def lua_touserdata (L : lua_State) (idx : Int) : Pointer :=
  match index2adr L idx with
  | some (LuaValue.userdata r) => Pointer.block r
  | some (LuaValue.lightuserdata p) => if p = 0 then Pointer.null else Pointer.light p
  | _ => Pointer.null

/-- The function `lua_rawequal`: primitive equality of the values at two
indices, false when either index is not valid. -/
def lua_rawequal (L : lua_State) (index1 index2 : Int) : Bool :=
  match index2adr L index1, index2adr L index2 with
  | some a, some b => decide (a = b)
  | _, _ => false

/-- Push a value (`lua_pushnil`, `lua_pushstring`, `lua_pushcclosure`, ...). -/
def push (v : LuaValue) : Lua Unit :=
  fun L => LuaResult.ok () { L with stack := L.stack ++ [v] }

/-- The function `lua_pop`: remove `n` values from the top. -/
def lua_pop (n : Nat) : Lua Unit :=
  fun L => LuaResult.ok () { L with stack := L.stack.take (L.stack.length - n) }

/-- The function `lua_pushvalue`: push a copy of the value at the index. -/
def lua_pushvalue (idx : Int) : Lua Unit :=
  fun L =>
    match index2adr L idx with
    | some v => LuaResult.ok () { L with stack := L.stack ++ [v] }
    | none => LuaResult.error "lua_pushvalue: index not valid" L

/-- The function `lua_remove`: remove the value at a stack index, shifting
down what is above. -/
def lua_remove (idx : Int) : Lua Unit :=
  fun L =>
    match stackPos L idx with
    | some i => LuaResult.ok () { L with stack := L.stack.eraseIdx i }
    | none => LuaResult.error "lua_remove: index not valid" L

/-- Write a table field, raw: `t[k] = v`. -/
def rawset (L : lua_State) (t : TableRef) (k v : LuaValue) : lua_State :=
  { L with tables := fun t1 k1 => if t1 = t ∧ k1 = k then v else L.tables t1 k1 }

/-- The function `lua_getfield`: push `t[k]` for the table `t` at the index.
Indexing a value that is not a table raises an error. -/
def lua_getfield (idx : Int) (k : String) : Lua Unit :=
  fun L =>
    match index2adr L idx with
    | some (LuaValue.table t) =>
      LuaResult.ok () { L with stack := L.stack ++ [L.tables t (LuaValue.string k)] }
    | v => LuaResult.error ("attempt to index a " ++ typeName v ++ " value") L

/-- The function `lua_setfield`: `t[k] = v` for the table `t` at the index and
the value `v` on top, which is popped. -/
def lua_setfield (idx : Int) (k : String) : Lua Unit :=
  fun L =>
    match index2adr L idx, L.stack.getLast? with
    | some (LuaValue.table t), some v =>
      LuaResult.ok () { rawset L t (LuaValue.string k) v with stack := L.stack.dropLast }
    | v, _ => LuaResult.error ("attempt to index a " ++ typeName v ++ " value") L

/-- The function `lua_settable`: `t[k] = v` for the table `t` at the index, the
value `v` on top and the key `k` below it; both are popped. -/
def lua_settable (idx : Int) : Lua Unit :=
  fun L =>
    match index2adr L idx, index2adr L (-2), index2adr L (-1) with
    | some (LuaValue.table t), some k, some v =>
      LuaResult.ok () { rawset L t k v with stack := L.stack.take (L.stack.length - 2) }
    | v, _, _ => LuaResult.error ("attempt to index a " ++ typeName v ++ " value") L

/-- The function `lua_newtable`: push a new, empty table. -/
def lua_newtable : Lua Unit :=
  fun L => LuaResult.ok ()
    { L with
      stack := L.stack ++ [LuaValue.table (TableRef.heap L.fresh)]
      tables := fun t k => if t = TableRef.heap L.fresh then LuaValue.nil else L.tables t k
      fresh := L.fresh + 1 }

/-- The function `lua_newuserdata`: allocate a block, push a full userdata
for it (no metatable yet) and return the address of the block. -/
def lua_newuserdata : Lua Nat :=
  fun L => LuaResult.ok L.fresh
    { L with
      stack := L.stack ++ [LuaValue.userdata L.fresh]
      udata := fun r => if r = L.fresh then { L.udata r with metatable := none } else L.udata r
      fresh := L.fresh + 1 }

/-- Store a URL into a userdata block, `*urlp = url`. -/
def writeURL (urlp : Nat) (url : URL) : Lua Unit :=
  fun L => LuaResult.ok ()
    { L with udata := fun r => if r = urlp then { L.udata r with url := url } else L.udata r }

/-- The function `lua_getmetatable`: push the metatable of the value at the
index and return true, or push nothing and return false.  Only full userdata
carry a metatable here. -/
def lua_getmetatable (idx : Int) : Lua Bool :=
  fun L =>
    match index2adr L idx with
    | some (LuaValue.userdata r) =>
      match (L.udata r).metatable with
      | some t => LuaResult.ok true { L with stack := L.stack ++ [LuaValue.table t] }
      | none => LuaResult.ok false L
    | _ => LuaResult.ok false L

/-- The function `lua_setmetatable`: pop a table or nil and make it the
metatable of the value at the index.  Another value on top breaks the
contract of the API and is an error here; so is a target that is not a full
userdata, whose metatable is not modelled. -/
def lua_setmetatable (idx : Int) : Lua Unit :=
  fun L =>
    match index2adr L idx, L.stack.getLast? with
    | some (LuaValue.userdata r), some (LuaValue.table t) =>
      LuaResult.ok ()
        { L with
          stack := L.stack.dropLast
          udata := fun q => if q = r then { L.udata q with metatable := some t } else L.udata q }
    | some (LuaValue.userdata r), some LuaValue.nil =>
      LuaResult.ok ()
        { L with
          stack := L.stack.dropLast
          udata := fun q => if q = r then { L.udata q with metatable := none } else L.udata q }
    | _, _ => LuaResult.error "lua_setmetatable: table expected" L

/-- The function `luaL_getmetatable`, `lua_getfield(L, LUA_REGISTRYINDEX, tname)`. -/
def luaL_getmetatable (tname : String) : Lua Unit := lua_getfield LUA_REGISTRYINDEX tname

/-- The function `luaL_typerror`: the error for an argument of the wrong type. -/
def luaL_typerror {α : Type} (narg : Int) (tname : String) : Lua α :=
  fun L => LuaResult.error
    ("bad argument #" ++ toString narg ++ " (" ++ tname ++ " expected, got "
      ++ typeName (index2adr L narg) ++ ")") L

/-- The function `luaL_checktype`. -/
def luaL_checktype (narg : Int) (t : Int) (tname : String) : Lua Unit :=
  fun L => if lua_type L narg = t then LuaResult.ok () L else luaL_typerror narg tname L

/-- The function `luaL_checkudata`: the block address when the value at the
index is a full userdata whose metatable is the one registered under `tname`,
otherwise a type error. -/
def luaL_checkudata (ud : Int) (tname : String) : Lua Nat :=
  fun L =>
    match index2adr L ud with
    | some (LuaValue.userdata r) =>
      match (L.udata r).metatable with
      | some t =>
        if L.tables TableRef.registry (LuaValue.string tname) = LuaValue.table t then
          LuaResult.ok r L
        else luaL_typerror ud tname L
      | none => luaL_typerror ud tname L
    | _ => luaL_typerror ud tname L

/-! ### What `script_msg.cpp` calls outside itself -/

/-- The functions and constants `script_msg.cpp` uses whose definitions are not
among the sources (`dlib/hash.h`, `dlib/message.h`, `script_private.h`,
`script_hash.cpp`, `script_ddf.cpp`, `script_table.cpp`) and the number
conversions of Lua.  They are arguments of the embedded functions.  Those
that take the Lua state only read it. -/
structure Env where
  /-- Conversion of a string to a number, `none` when it is not a numeral -/
  lua_str2number : String → Option LuaNumber
  /-- Conversion of a number to a string -/
  lua_number2str : LuaNumber → String
  /-- Conversion of a `lua_Number` to `dmMessage::HSocket` -/
  number2socket : LuaNumber → Nat
  dmHashString64 : String → Nat
  /-- The integer value of a `dmMessage::Result`, as `%d` prints it -/
  resultCode : MsgResult → Int
  /-- The value of a `dmMessage::URL` declared without initialiser -/
  URL0 : URL
  /-- The call `dmMessage::ParseURL(s, &url)`: result and `url` afterwards -/
  ParseURL : String → URL → MsgResult × URL
  /-- The call `dmMessage::GetSocket(name, &socket)`: result and `socket`
  afterwards; `name` may be a null pointer -/
  GetSocket : Option String → Nat → MsgResult × Nat
  /-- The call `dmMessage::GetSocketName(socket)`, `none` for a null pointer -/
  GetSocketName : Nat → Option String
  /-- The function `IsHash(L, index)` -/
  IsHash : lua_State → Int → Bool
  /-- The function `CheckHash(L, index)`: the hash, or a raised error -/
  CheckHash : lua_State → Int → Except String Nat
  SCRIPT_GET_URLS_CALLBACK : String
  SCRIPT_CONTEXT : String
  /-- A call through a `SetURLsCallback` pointer that is not null:
  `callback(L, index, &sender, &receiver)` -/
  callback : Pointer → lua_State → Int → URL → URL → Bool × URL × URL
  /-- The lookup `context->m_Descriptors.Get(message_id)` through an
  `HContext` pointer that is not null, `none` for a null result -/
  Get : Pointer → Nat → Option Descriptor
  /-- The call `CheckDDF(L, desc, data, size, index)`: the buffer and the
  number of bytes used, or a raised error -/
  CheckDDF : lua_State → Descriptor → Nat → Int → Except String (List Nat × Nat)
  /-- The call `CheckTable(L, data, size, index)`: likewise -/
  CheckTable : lua_State → Nat → Int → Except String (List Nat × Nat)
  /-- The result of `dmMessage::Post` -/
  Post : Posted → MsgResult

/-- Run a function of `Env` that reads the state and may raise an error. -/
def liftExcept {α : Type} (f : lua_State → Except String α) : Lua α :=
  fun L =>
    match f L with
    | Except.ok a => LuaResult.ok a L
    | Except.error msg => LuaResult.error msg L

/-- The function `lua_isnumber`: a number or a string convertible to one. -/
def lua_isnumber (env : Env) (L : lua_State) (idx : Int) : Bool :=
  match index2adr L idx with
  | some (LuaValue.number _) => true
  | some (LuaValue.string s) => (env.lua_str2number s).isSome
  | _ => false

/-- The function `lua_isstring`: a string or a number. -/
def lua_isstring (L : lua_State) (idx : Int) : Bool :=
  decide (lua_type L idx = LUA_TSTRING) || decide (lua_type L idx = LUA_TNUMBER)

/-- The function `lua_tonumber`: the number, the number a string converts to,
otherwise 0. -/
def lua_tonumber (env : Env) (L : lua_State) (idx : Int) : LuaNumber :=
  match index2adr L idx with
  | some (LuaValue.number n) => n
  | some (LuaValue.string s) => (env.lua_str2number s).getD ⟨0⟩
  | _ => ⟨0⟩

/-- The function `lua_tostring` (`lua_tolstring`): the string; for a number its
conversion, which also replaces the value in the stack; otherwise a null
pointer. -/
def lua_tostring (env : Env) (idx : Int) : Lua (Option String) :=
  fun L =>
    match index2adr L idx with
    | some (LuaValue.string s) => LuaResult.ok (some s) L
    | some (LuaValue.number n) =>
      match stackPos L idx with
      | some i =>
        LuaResult.ok (some (env.lua_number2str n))
          { L with stack := L.stack.set i (LuaValue.string (env.lua_number2str n)) }
      | none => LuaResult.ok (some (env.lua_number2str n)) L
    | _ => LuaResult.ok none L

/-- The function `luaL_checkstring` (`luaL_checklstring`). -/
def luaL_checkstring (env : Env) (narg : Int) : Lua String := do
  let s ← lua_tostring env narg
  match s with
  | some str => pure str
  | none => luaL_typerror narg "string"

/-- The function `luaL_checknumber`. -/
def luaL_checknumber (env : Env) (narg : Int) : Lua LuaNumber := do
  let L ← getL
  if lua_isnumber env L narg then pure (lua_tonumber env L narg)
  else luaL_typerror narg "number"

/-- The function `lua_getglobal`, `lua_getfield(L, LUA_GLOBALSINDEX, name)`. -/
def lua_getglobal (name : String) : Lua Unit := lua_getfield LUA_GLOBALSINDEX name

/-! ### `lauxlib.c`: metatables by name and library registration -/

/-- The function `luaL_newmetatable`: when the registry has no value under
`tname`, a new table is stored there; in both cases the value under `tname`
is pushed.  Returns whether a table was created. -/
def luaL_newmetatable (tname : String) : Lua Bool := do
  lua_getfield LUA_REGISTRYINDEX tname
  if !(lua_isnil (← getL) (-1)) then
    pure false
  else do
    lua_pop 1
    lua_newtable
    lua_pushvalue (-1)
    lua_setfield LUA_REGISTRYINDEX tname
    pure true

/-- The function `luaL_findtable` for a name without dots: push the table
stored under `fname` in the table at `idx`, creating it when the field is nil.
Returns false, with nothing pushed, when the field holds another value. -/
def luaL_findtable (idx : Int) (fname : String) : Lua Bool := do
  lua_pushvalue idx
  lua_getfield (-1) fname
  let L ← getL
  if lua_isnil L (-1) then do
    lua_pop 1
    lua_newtable
    push (LuaValue.string fname)
    lua_pushvalue (-2)
    lua_settable (-4)
    lua_remove (-2)
    pure true
  else if !(lua_istable L (-1)) then do
    lua_pop 2
    pure false
  else do
    lua_remove (-2)
    pure true

/-- The loop of `luaL_register` over the function list: each function is
pushed and stored in the table on top under its name. -/
def registerAll : List (String × String) → Lua Unit
  | [] => pure ()
  | (name, func) :: l => do
    push (LuaValue.cfunction func)
    lua_setfield (-2) name
    registerAll l

/-- The function `luaL_register` (`luaI_openlib` without upvalues).  With a
library name the table of the library is found in `_LOADED` or in the
globals, or created, and left on the stack; the functions of the list are
stored in the table on top. -/
def luaL_register (libname : Option String) (l : List (String × String)) : Lua Unit := do
  match libname with
  | some name =>
    let _ ← luaL_findtable LUA_REGISTRYINDEX "_LOADED"
    lua_getfield (-1) name
    if !(lua_istable (← getL) (-1)) then do
      lua_pop 1
      let found ← luaL_findtable LUA_GLOBALSINDEX name
      if !found then luaL_error ("name conflict for module '" ++ name ++ "'")
      lua_pushvalue (-1)
      lua_setfield (-3) name
    lua_remove (-2)
  | none => pure ()
  registerAll l

/-! ## `script_msg.cpp` -/

def SCRIPT_LIB_NAME : String := "msg"
def SCRIPT_TYPE_NAME_URL : String := "url"
def MAX_MESSAGE_DATA_SIZE : Nat := 256

/-- The URL in a userdata block, `*url`. -/
def readURL (L : lua_State) (url : Nat) : URL := (L.udata url).url

/-- The function `IsURL`. -/
def IsURL (index : Int) : Lua Bool := do
  -- void *p = lua_touserdata(L, index);   bool result = false;
  let p := lua_touserdata (← getL) index
  if p ≠ Pointer.null then do
    -- if (lua_getmetatable(L, index))
    if (← lua_getmetatable index) then do
      -- lua_getfield(L, LUA_REGISTRYINDEX, SCRIPT_TYPE_NAME_URL);
      lua_getfield LUA_REGISTRYINDEX SCRIPT_TYPE_NAME_URL
      -- if (lua_rawequal(L, -1, -2)) result = true;
      let result := lua_rawequal (← getL) (-1) (-2)
      -- lua_pop(L, 2);
      lua_pop 2
      pure result
    else pure false
  else pure false

/-- The function `PushURL`. -/
def PushURL (url : URL) : Lua Unit := do
  -- dmMessage::URL* urlp = (dmMessage::URL*)lua_newuserdata(L, sizeof(dmMessage::URL));
  let urlp ← lua_newuserdata
  -- *urlp = url;
  writeURL urlp url
  -- luaL_getmetatable(L, SCRIPT_TYPE_NAME_URL);
  luaL_getmetatable SCRIPT_TYPE_NAME_URL
  -- lua_setmetatable(L, -2);
  lua_setmetatable (-2)

/-- The function `CheckURL`: the address of the URL block. -/
def CheckURL (index : Int) : Lua Nat := do
  -- if (lua_type(L, index) == LUA_TUSERDATA)
  if lua_type (← getL) index = LUA_TUSERDATA then
    -- return (dmMessage::URL*)luaL_checkudata(L, index, SCRIPT_TYPE_NAME_URL);
    luaL_checkudata index SCRIPT_TYPE_NAME_URL
  else
    -- luaL_typerror(L, index, SCRIPT_TYPE_NAME_URL);
    luaL_typerror index SCRIPT_TYPE_NAME_URL

/-- Assign to a member of the URL in a userdata block. -/
def modifyURL (url : Nat) (f : URL → URL) : Lua Unit :=
  fun L => LuaResult.ok ()
    { L with udata := fun r => if r = url then { L.udata r with url := f (L.udata r).url }
                               else L.udata r }

/-- The branch of `URL_newindex` for the key `socket` (lines 156-180). -/
def URL_newindex.socket (env : Env) (url : Nat) : Lua Unit := do
  let L ← getL
  -- if (lua_isnumber(L, 3))
  if lua_isnumber env L 3 then do
    -- url->m_Socket = (dmMessage::HSocket)luaL_checknumber(L, 3);
    let n ← luaL_checknumber env 3
    modifyURL url (fun u => { u with m_Socket := env.number2socket n })
    -- if (dmMessage::GetSocketName(url->m_Socket) == 0x0)
    if env.GetSocketName (env.number2socket n) = none then
      luaL_error ("Could not find the socket in " ++ toString (env.number2socket n) ++ ".")
  -- else if (lua_isstring(L, 3))
  else if lua_isstring L 3 then do
    -- const char* socket_name = lua_tostring(L, 3);
    let socket_name ← lua_tostring env 3
    -- dmMessage::Result result = dmMessage::GetSocket(socket_name, &url->m_Socket);
    let r := env.GetSocket socket_name (readURL (← getL) url).m_Socket
    modifyURL url (fun u => { u with m_Socket := r.2 })
    -- if (result != dmMessage::RESULT_OK)
    if r.1 ≠ MsgResult.RESULT_OK then
      luaL_error ("Could not find the socket '" ++ socket_name.getD "" ++ "'.")
  -- else if (lua_isnil(L, 3))
  else if lua_isnil L 3 then
    -- url->m_Socket = 0;
    modifyURL url (fun u => { u with m_Socket := 0 })
  else
    luaL_error "Invalid type for socket, must be number, string or nil."

/-- The branch of `URL_newindex` for the key `path` (lines 184-199). -/
def URL_newindex.path (env : Env) (url : Nat) : Lua Unit := do
  let L ← getL
  -- if (lua_isstring(L, 3))
  if lua_isstring L 3 then do
    -- url->m_Path = dmHashString64(lua_tostring(L, 3));
    let s ← lua_tostring env 3
    modifyURL url (fun u => { u with m_Path := env.dmHashString64 (s.getD "") })
  -- else if (lua_isnil(L, 3))
  else if lua_isnil L 3 then
    -- url->m_Path = 0;
    modifyURL url (fun u => { u with m_Path := 0 })
  -- else if (IsHash(L, 3))
  else if env.IsHash L 3 then do
    -- url->m_Path = CheckHash(L, 3);
    let h ← liftExcept (fun L1 => env.CheckHash L1 3)
    modifyURL url (fun u => { u with m_Path := h })
  else
    luaL_error "Invalid type for path, must be hash, string or nil."

/-- The branch of `URL_newindex` for the key `fragment` (lines 203-218). -/
def URL_newindex.fragment (env : Env) (url : Nat) : Lua Unit := do
  let L ← getL
  -- if (lua_isstring(L, 3))
  if lua_isstring L 3 then do
    -- url->m_Fragment = dmHashString64(lua_tostring(L, 3));
    let s ← lua_tostring env 3
    modifyURL url (fun u => { u with m_Fragment := env.dmHashString64 (s.getD "") })
  -- else if (lua_isnil(L, 3))
  else if lua_isnil L 3 then
    -- url->m_Fragment = 0;
    modifyURL url (fun u => { u with m_Fragment := 0 })
  -- else if (IsHash(L, 3))
  else if env.IsHash L 3 then do
    -- url->m_Fragment = CheckHash(L, 3);
    let h ← liftExcept (fun L1 => env.CheckHash L1 3)
    modifyURL url (fun u => { u with m_Fragment := h })
  else
    luaL_error "Invalid type for fragment, must be hash, string or nil."

/-- The function `URL_newindex`, the `__newindex` metamethod of a URL:
`url[key] = value` with the URL at index 1, the key at 2 and the value at 3. -/
def URL_newindex (env : Env) : Lua Int := do
  -- dmMessage::URL* url = CheckURL(L, 1);
  let url ← CheckURL 1
  -- const char* key = luaL_checkstring(L, 2);
  let key ← luaL_checkstring env 2
  -- if (strcmp("socket", key) == 0)
  if key = "socket" then
    URL_newindex.socket env url
  -- else if (strcmp("path", key) == 0)
  else if key = "path" then
    URL_newindex.path env url
  -- else if (strcmp("fragment", key) == 0)
  else if key = "fragment" then
    URL_newindex.fragment env url
  else
    luaL_error (SCRIPT_LIB_NAME ++ "." ++ SCRIPT_TYPE_NAME_URL
      ++ " only has fields socket, path, fragment.")
  -- return 0;
  pure 0

/-- The branch `top == 1 && !lua_isnil(L, 1)` of `URL_new` (lines 257-271):
the URL parsed from the string argument. -/
def URL_new.parse (env : Env) (url : URL) : Lua URL := do
  -- const char* s = luaL_checkstring(L, 1);
  let s ← luaL_checkstring env 1
  -- dmMessage::Result result = dmMessage::ParseURL(s, &url);   switch (result)
  match env.ParseURL s url with
  | (MsgResult.RESULT_OK, url1) => pure url1
  | (MsgResult.RESULT_MALFORMED_URL, _) =>
    luaL_error ("Error when parsing '" ++ s
      ++ "', must be of the format 'socket:path#fragment'.")
  | (MsgResult.RESULT_INVALID_SOCKET_NAME, _) =>
    luaL_error ("The socket name in '" ++ s ++ "' is invalid.")
  | (MsgResult.RESULT_SOCKET_NOT_FOUND, _) =>
    luaL_error ("The socket in '" ++ s ++ "' could not be found.")
  -- default:
  | (MsgResult.other code, _) =>
    luaL_error ("Error when parsing '" ++ s ++ "': "
      ++ toString (env.resultCode (MsgResult.other code)) ++ ".")

/-- The start of the branch `top == 3` of `URL_new` (lines 275-297): the socket. -/
def URL_new.socket (env : Env) (url : URL) : Lua URL := do
  let L ← getL
  -- if (!lua_isnil(L, 1))
  if !(lua_isnil L 1) then
    -- if (lua_isnumber(L, 1))
    if lua_isnumber env L 1 then
      -- url.m_Socket = lua_tonumber(L, 1);
      pure { url with m_Socket := env.number2socket (lua_tonumber env L 1) }
    else do
      -- const char* s = lua_tostring(L, 1);
      let s ← lua_tostring env 1
      -- dmMessage::Result result = dmMessage::GetSocket(s, &url.m_Socket);   switch (result)
      match env.GetSocket s url.m_Socket with
      | (MsgResult.RESULT_OK, socket) => pure { url with m_Socket := socket }
      | (MsgResult.RESULT_INVALID_SOCKET_NAME, _) =>
        luaL_error ("The socket '" ++ s.getD "" ++ "' is invalid.")
      | (MsgResult.RESULT_SOCKET_NOT_FOUND, _) =>
        luaL_error ("The socket '" ++ s.getD "" ++ "' could not be found.")
      -- default:
      | (result, _) =>
        luaL_error ("Error when checking socket '" ++ s.getD "" ++ "': "
          ++ toString (env.resultCode result) ++ ".")
  else pure url

/-- The path or the fragment of the branch `top == 3` of `URL_new` (lines
298-319): the hash for the argument at `index`, or `none` when it is nil
and the member keeps its value. -/
def URL_new.hashOf (env : Env) (index : Int) : Lua (Option Nat) := do
  let L ← getL
  -- if (!lua_isnil(L, index))
  if !(lua_isnil L index) then
    -- if (lua_isstring(L, index))
    if lua_isstring L index then do
      -- ... = dmHashString64(lua_tostring(L, index));
      let s ← lua_tostring env index
      pure (some (env.dmHashString64 (s.getD "")))
    else do
      -- ... = CheckHash(L, index);
      let h ← liftExcept (fun L1 => env.CheckHash L1 index)
      pure (some h)
  else pure none

/-- The text of the error the last branch of `URL_new` raises. -/
def URL_new.unsupported : String :=
  "Only " ++ SCRIPT_LIB_NAME ++ "." ++ SCRIPT_TYPE_NAME_URL
    ++ "(\"[socket:][path][#fragment]\") or " ++ SCRIPT_LIB_NAME ++ "."
    ++ SCRIPT_TYPE_NAME_URL ++ "(socket, path, fragment) is supported."

/-- The function `URL_new`, `msg.url(...)`. -/
def URL_new (env : Env) : Lua Int := do
  -- int top = lua_gettop(L);   dmMessage::URL url;
  let L ← getL
  let top := lua_gettop L
  let url := env.URL0
  let url ←
    -- if (top == 1 && !lua_isnil(L, 1))
    if top = 1 ∧ lua_isnil L 1 = false then
      URL_new.parse env url
    -- else if (top == 3)
    else if top = 3 then do
      let url ← URL_new.socket env url
      -- url.m_Path = ...
      let path ← URL_new.hashOf env 2
      let url := { url with m_Path := path.getD url.m_Path }
      -- url.m_Fragment = ...
      let fragment ← URL_new.hashOf env 3
      pure { url with m_Fragment := fragment.getD url.m_Fragment }
    -- else if (top > 0 && !lua_isnil(L, 1))
    else if 0 < top ∧ lua_isnil L 1 = false then
      luaL_error URL_new.unsupported
    else pure url
  -- PushURL(L, url);
  PushURL url
  -- assert(top + 1 == lua_gettop(L));   return 1;
  pure 1

/-- What `Msg_Post` has worked out before it looks at the message data. -/
structure Msg_Post.Header where
  sender : URL
  receiver : URL
  message_id : Nat
  deriving DecidableEq, Repr

/-- The receiver of `Msg_Post` (lines 337-360), from argument 2: a string is
parsed, anything else must be a URL. -/
def Msg_Post.receiver (env : Env) : Lua URL := do
  -- dmMessage::URL receiver;
  let receiver := env.URL0
  -- if (lua_isstring(L, 2))
  if lua_isstring (← getL) 2 then do
    -- const char* url = lua_tostring(L, 2);
    let url ← lua_tostring env 2
    -- dmMessage::Result result = dmMessage::ParseURL(url, &receiver);
    match env.ParseURL (url.getD "") receiver with
    | (MsgResult.RESULT_OK, r) => pure r
    | (MsgResult.RESULT_SOCKET_NOT_FOUND, _) =>
      luaL_error ("Could not send message to " ++ url.getD ""
        ++ " because the socket could not be found.")
    | (MsgResult.RESULT_INVALID_SOCKET_NAME, _) =>
      luaL_error ("Could not send message to " ++ url.getD ""
        ++ " because the socket name is invalid.")
    | (MsgResult.RESULT_MALFORMED_URL, _) =>
      luaL_error ("Could not send message to " ++ url.getD ""
        ++ " because the address is invalid (should be [socket:][path][#fragment]).")
    -- default: break;
    | (MsgResult.other _, r) => pure r
  else do
    -- receiver = *CheckURL(L, 2);
    let p ← CheckURL 2
    pure (readURL (← getL) p)

/-- The call of the URL callback in `Msg_Post` (lines 361-368): sender and
receiver as the callback left them.  With a null callback the assertion
fails (and without assertions the call goes through a null pointer): the
process ends. -/
def Msg_Post.urls (env : Env) (receiver : URL) : Lua (URL × URL) := do
  -- dmMessage::URL sender;   lua_getglobal(L, SCRIPT_GET_URLS_CALLBACK);
  lua_getglobal env.SCRIPT_GET_URLS_CALLBACK
  -- SetURLsCallback callback = (SetURLsCallback)lua_touserdata(L, -1);
  let callback := lua_touserdata (← getL) (-1)
  -- lua_pop(L, 1);
  lua_pop 1
  -- assert(callback != 0x0);
  if callback = Pointer.null then abort
  else do
    -- if (!callback(L, 1, &sender, &receiver))
    let r := env.callback callback (← getL) 1 env.URL0 receiver
    if r.1 = false then
      luaL_error "The self reference is invalid."
    else pure r.2

/-- The message id of `Msg_Post` (lines 369-377), from argument 3. -/
def Msg_Post.message_id (env : Env) : Lua Nat := do
  -- if (lua_isstring(L, 3))
  if lua_isstring (← getL) 3 then do
    -- message_id = dmHashString64(lua_tostring(L, 3));
    let s ← lua_tostring env 3
    pure (env.dmHashString64 (s.getD ""))
  else
    -- message_id = CheckHash(L, 3);
    liftExcept (fun L1 => env.CheckHash L1 3)

/-- The first part of `Msg_Post` (lines 334-377): the receiver from argument
2, the sender and receiver filled by the callback, the message id from
argument 3. -/
def Msg_Post.header (env : Env) : Lua Msg_Post.Header := do
  let receiver ← Msg_Post.receiver env
  let urls ← Msg_Post.urls env receiver
  let message_id ← Msg_Post.message_id env
  pure { sender := urls.1, receiver := urls.2, message_id := message_id }

/-- The `HContext` that `Msg_Post` reads from the global `SCRIPT_CONTEXT`. -/
def Msg_Post.context (env : Env) (L : lua_State) : Pointer :=
  match L.tables TableRef.globals (LuaValue.string env.SCRIPT_CONTEXT) with
  | LuaValue.userdata r => Pointer.block r
  | LuaValue.lightuserdata p => if p = 0 then Pointer.null else Pointer.light p
  | _ => Pointer.null

/-- The text of the error for a message type that is too large. -/
def Msg_Post.tooLarge (size : Nat) : String :=
  "The message is too large to be sent (" ++ toString size ++ " bytes, max is "
    ++ toString MAX_MESSAGE_DATA_SIZE ++ ")."

/-- What `Msg_Post` hands to `dmMessage::Post` besides the addresses: the
descriptor, the buffer and the number of bytes used. -/
structure Msg_Post.Data where
  descriptor : Option Descriptor
  data : List Nat
  data_size : Nat
  deriving DecidableEq, Repr

/-- The message data of `Msg_Post` (lines 379-407), from argument 4.  The
lookup goes through the `HContext` pointer read from the global: with a null
context the access `context->m_Descriptors` ends the process. -/
def Msg_Post.data (env : Env) (top : Int) (message_id : Nat) : Lua Msg_Post.Data := do
  -- uintptr_t descriptor = 0;   char data[MAX_MESSAGE_DATA_SIZE];   uint32_t data_size = 0;
  -- if (top > 3)
  if 3 < top then do
    -- lua_getglobal(L, SCRIPT_CONTEXT);   HContext context = (HContext)lua_touserdata(L, -1);
    lua_getglobal env.SCRIPT_CONTEXT
    let context := lua_touserdata (← getL) (-1)
    -- lua_pop(L, 1);
    lua_pop 1
    -- const dmDDF::Descriptor** desc = context->m_Descriptors.Get(message_id);
    if context = Pointer.null then abort
    else
      match env.Get context message_id with
      -- if (desc != 0)
      | some desc =>
        -- descriptor = (uintptr_t)*desc;   if ((*desc)->m_Size > MAX_MESSAGE_DATA_SIZE)
        if MAX_MESSAGE_DATA_SIZE < desc.m_Size then
          luaL_error (Msg_Post.tooLarge desc.m_Size)
        else do
          -- luaL_checktype(L, 4, LUA_TTABLE);
          luaL_checktype 4 LUA_TTABLE "table"
          -- lua_pushvalue(L, 4);
          lua_pushvalue 4
          -- data_size = dmScript::CheckDDF(L, *desc, data, MAX_MESSAGE_DATA_SIZE, 4);
          let d ← liftExcept (fun L1 => env.CheckDDF L1 desc MAX_MESSAGE_DATA_SIZE 4)
          -- lua_pop(L, 1);
          lua_pop 1
          pure { descriptor := some desc, data := d.1, data_size := d.2 }
      | none => do
        -- data_size = dmScript::CheckTable(L, data, MAX_MESSAGE_DATA_SIZE, 4);
        let d ← liftExcept (fun L1 => env.CheckTable L1 MAX_MESSAGE_DATA_SIZE 4)
        pure { descriptor := none, data := d.1, data_size := d.2 }
  else pure { descriptor := none, data := [], data_size := 0 }

/-- The message `Msg_Post` passes to `dmMessage::Post`. -/
def Msg_Post.message (h : Msg_Post.Header) (d : Msg_Post.Data) : Posted :=
  { sender := h.sender, receiver := h.receiver, message_id := h.message_id,
    descriptor := d.descriptor, data := d.data, data_size := d.data_size }

/-- The call of `dmMessage::Post` (lines 409-417); the call is recorded.  A
stack height other than `top` fails the assertion before it: the process
ends. -/
def Msg_Post.post (env : Env) (top : Int) (message : Posted) : Lua Int := do
  -- assert(top == lua_gettop(L));
  if top ≠ lua_gettop (← getL) then abort
  else do
    -- dmMessage::Result result = dmMessage::Post(&sender, &receiver, message_id, descriptor, data, data_size);
    let L ← getL
    setL { L with posted := L.posted ++ [message] }
    -- if (result != dmMessage::RESULT_OK)
    if env.Post message ≠ MsgResult.RESULT_OK then
      luaL_error ("Could not send message to "
        ++ (env.GetSocketName message.receiver.m_Socket).getD "(null)" ++ ".")
    -- return 0;
    else pure 0

/-- The second part of `Msg_Post` (lines 379-417): the message data from
argument 4 and the call of `dmMessage::Post`. -/
def Msg_Post.send (env : Env) (top : Int) (h : Msg_Post.Header) : Lua Int := do
  let d ← Msg_Post.data env top h.message_id
  Msg_Post.post env top (Msg_Post.message h d)

/-- The function `Msg_Post`, `msg.post(...)`. -/
def Msg_Post (env : Env) : Lua Int := do
  -- int top = lua_gettop(L);
  let top := lua_gettop (← getL)
  let h ← Msg_Post.header env
  Msg_Post.send env top h

/-- The table `URL_methods`: no entry. -/
def URL_methods : List (String × String) := []

/-- The table `URL_meta`: the metamethods of a URL, by the name of the C
function. -/
def URL_meta : List (String × String) :=
  [("__gc", "URL_gc"), ("__tostring", "URL_tostring"), ("__concat", "URL_concat"),
    ("__index", "URL_index"), ("__newindex", "URL_newindex"), ("__eq", "URL_eq")]

/-- The table `ScriptMsg_methods`. -/
def ScriptMsg_methods : List (String × String) :=
  [(SCRIPT_TYPE_NAME_URL, "URL_new"), ("post", "Msg_Post")]

/-- The function `InitializeMsg`; the loop over `types` has one round. -/
def InitializeMsg : Lua Unit := do
  -- int top = lua_gettop(L);
  -- luaL_register(L, types[i].m_Name, types[i].m_Methods);
  luaL_register (some SCRIPT_TYPE_NAME_URL) URL_methods
  -- int methods_index = lua_gettop(L);
  let methods_index := lua_gettop (← getL)
  -- luaL_newmetatable(L, types[i].m_Name);
  let _ ← luaL_newmetatable SCRIPT_TYPE_NAME_URL
  -- int metatable = lua_gettop(L);
  let metatable := lua_gettop (← getL)
  -- luaL_register(L, 0, types[i].m_Metatable);
  luaL_register none URL_meta
  -- lua_pushliteral(L, "__metatable");
  push (LuaValue.string "__metatable")
  -- lua_pushvalue(L, methods_index);
  lua_pushvalue methods_index
  -- lua_settable(L, metatable);
  lua_settable metatable
  -- lua_pop(L, 2);
  lua_pop 2
  -- luaL_register(L, SCRIPT_LIB_NAME, ScriptMsg_methods);
  luaL_register (some SCRIPT_LIB_NAME) ScriptMsg_methods
  -- lua_pop(L, 1);
  lua_pop 1
  -- assert(top == lua_gettop(L));

/-! ### Concrete states and surroundings, for evaluation -/

/-- The state `lua_open` returns: empty stack, empty registry and globals. -/
def lua_open : lua_State where
  stack := []
  tables := fun _ _ => LuaValue.nil
  udata := fun _ => { url := ⟨0, 0, 0⟩, metatable := none }
  fresh := 0
  posted := []

/-- Replace the stack of a state: the arguments of a call. -/
def withArgs (L : lua_State) (args : List LuaValue) : lua_State := { L with stack := args }

/-- The state a C function ended in. -/
def LuaResult.state {α : Type} : LuaResult α → lua_State
  | LuaResult.ok _ L => L
  | LuaResult.error _ L => L
  | LuaResult.abort L => L

/-- The value a C function returned, `none` when it did not return. -/
def LuaResult.value {α : Type} : LuaResult α → Option α
  | LuaResult.ok a _ => some a
  | LuaResult.error _ _ => none
  | LuaResult.abort _ => none

/-- The message of the error a C function raised, `none` when it raised none. -/
def LuaResult.raised {α : Type} : LuaResult α → Option String
  | LuaResult.ok _ _ => none
  | LuaResult.error msg _ => some msg
  | LuaResult.abort _ => none

/-- Surroundings for evaluation: the hash of a string is its length plus 1,
every URL string parses to socket 1 with the length of the string as path, no
socket is known, no value is a hash, the callback accepts, and one message
type, with id 5, of 300 bytes, is registered. -/
def sampleEnv : Env where
  lua_str2number := fun _ => none
  lua_number2str := fun n => toString n.bits
  number2socket := fun n => n.bits
  dmHashString64 := fun s => s.length + 1
  resultCode := fun _ => 0
  URL0 := ⟨0, 0, 0⟩
  ParseURL := fun s _ => (MsgResult.RESULT_OK, ⟨1, s.length, 0⟩)
  GetSocket := fun _ socket => (MsgResult.RESULT_SOCKET_NOT_FOUND, socket)
  GetSocketName := fun _ => none
  IsHash := fun _ _ => false
  CheckHash := fun _ _ => Except.error "bad argument (hash expected)"
  SCRIPT_GET_URLS_CALLBACK := "__script_get_urls_callback"
  SCRIPT_CONTEXT := "__script_context"
  callback := fun _ _ _ sender receiver => (true, sender, receiver)
  Get := fun _ id => if id = 5 then some ⟨"big", 300⟩ else none
  CheckDDF := fun _ _ _ _ => Except.ok ([], 0)
  CheckTable := fun _ _ _ => Except.ok ([0], 1)
  Post := fun _ => MsgResult.RESULT_OK

/-- A state in which the URL metatable is registered (it is table 0) and one
URL, all zero, lives in block 0. -/
def sampleState : lua_State where
  stack := []
  tables := fun t k =>
    if t = TableRef.registry ∧ k = LuaValue.string "url" then LuaValue.table (TableRef.heap 0)
    else LuaValue.nil
  udata := fun _ => { url := ⟨0, 0, 0⟩, metatable := some (TableRef.heap 0) }
  fresh := 1
  posted := []

/-- The state `sampleState` with the two globals `Msg_Post` reads: a URL
callback and a script context, both light userdata that are not null. -/
def postState : lua_State :=
  { sampleState with
    tables := fun t k =>
      if t = TableRef.globals ∧ k = LuaValue.string "__script_get_urls_callback" then
        LuaValue.lightuserdata 100
      else if t = TableRef.globals ∧ k = LuaValue.string "__script_context" then
        LuaValue.lightuserdata 200
      else sampleState.tables t k }

/-- The arguments of `msg.post(nil, "a:b", "abcd", {})`. -/
def postArgs : List LuaValue :=
  [LuaValue.nil, LuaValue.string "a:b", LuaValue.string "abcd",
    LuaValue.table (TableRef.heap 9)]

/-- A state in which the names `InitializeMsg` registers are unused: nothing
is registered under `url`, there is no global `url` or `msg`, and either no
library has been loaded yet or the table `_LOADED` is a table created earlier
that has no entry for `url` or `msg`. -/
def NamesFree (L : lua_State) : Prop :=
  L.tables TableRef.registry (LuaValue.string "url") = LuaValue.nil ∧
  L.tables TableRef.globals (LuaValue.string "url") = LuaValue.nil ∧
  L.tables TableRef.globals (LuaValue.string "msg") = LuaValue.nil ∧
  (L.tables TableRef.registry (LuaValue.string "_LOADED") = LuaValue.nil ∨
    ∃ n, n < L.fresh ∧
      L.tables TableRef.registry (LuaValue.string "_LOADED")
        = LuaValue.table (TableRef.heap n) ∧
      L.tables (TableRef.heap n) (LuaValue.string "url") = LuaValue.nil ∧
      L.tables (TableRef.heap n) (LuaValue.string "msg") = LuaValue.nil)

end dmScript

namespace dmProfile

/-! ## The frame controller (`Begin`, `End`, `GetMaxFrameTime`)

Only the declarations of these functions are in `profile.h`; their bodies are
not among the sources.  They are modelled from the specification, section 4.4.
A frame time is an exact rational number of seconds here, where the C++
function returns a `float`. -/

/-- Modelled from the spec: the frame state behind `Begin`, `End`,
`GetFrameTime` and `GetMaxFrameTime`, whose definitions are not among the
sources: whether a frame is open, the frame-start tick, the 60-slot circular
window of frame times, the number of completed frames, the last frame time
and the rolling maximum. -/
structure FrameState where
  inFrame : Bool
  beginTick : Nat
  window : Nat → ℚ
  completed : Nat
  frameTime : ℚ
  maxFrameTime : ℚ

/-- The number of slots of the circular window. -/
def WINDOW : Nat := 60

/-- Modelled from the spec: the state before the first frame (`Initialize`,
not among the sources): idle, no completed frame. -/
def FrameState.idle : FrameState where
  inFrame := false
  beginTick := 0
  window := fun _ => 0
  completed := 0
  frameTime := 0
  maxFrameTime := 0

/-- Modelled from the spec: `Begin` (not among the sources), "captures the
frame-start tick"; the call is a usage error while a frame is open and then
does nothing. -/
def Begin (st : FrameState) (now : Nat) : FrameState :=
  if st.inFrame then st else { st with inFrame := true, beginTick := now }

/-- Modelled from the spec: the "full rescan of the window" (not among the
sources): the greatest of the first `n` slots, for `n ≥ 1`. -/
def rescan (window : Nat → ℚ) : Nat → ℚ
  | 0 => window 0
  | 1 => window 0
  | n + 2 => max (rescan window (n + 1)) (window (n + 1))

/-- Modelled from the spec: `End` (not among the sources), which "captures
the frame-end tick, computes frame_time = (end - start) / ticks_per_second,
pushes frame_time into the 60-slot circular window (overwriting the oldest
entry), and recomputes the rolling maximum" by a rescan of the slots filled
so far; the call is a usage error while no frame is open and then does
nothing. -/
def End (ticksPerSecond : Nat) (st : FrameState) (now : Nat) : FrameState :=
  if st.inFrame then
    let frame_time : ℚ := ((now - st.beginTick : Nat) : ℚ) / (ticksPerSecond : ℚ)
    let window := store st.window (st.completed % WINDOW) frame_time
    let completed := st.completed + 1
    { inFrame := false
      beginTick := st.beginTick
      window := window
      completed := completed
      frameTime := frame_time
      maxFrameTime := rescan window (min completed WINDOW) }
  else st

/-- Modelled from the spec: `GetMaxFrameTime` (declared in `profile.h`, defined
elsewhere): the rolling maximum that `End` left. -/
def GetMaxFrameTime (st : FrameState) : ℚ := st.maxFrameTime

/-- A completed frame: the tick `Begin` read and the tick `End` read. -/
structure Frame where
  start : Nat
  stop : Nat
  deriving DecidableEq, Repr

/-- The duration of a frame in seconds. -/
def Frame.duration (ticksPerSecond : Nat) (f : Frame) : ℚ :=
  ((f.stop - f.start : Nat) : ℚ) / (ticksPerSecond : ℚ)

/-- Run complete frames, `Begin` then `End` for each. -/
def runFrames (ticksPerSecond : Nat) (st : FrameState) : List Frame → FrameState
  | [] => st
  | f :: fs => runFrames ticksPerSecond (End ticksPerSecond (Begin st f.start) f.stop) fs

/-- What `End` maintains, for the frame times `ds` of the frames completed so
far: no frame is open, the count is right, each of the last 60 frame times is
in its slot, and the maximum is the rescan of the filled slots. -/
def FrameState.Holds (st : FrameState) (ds : List ℚ) : Prop :=
  st.inFrame = false ∧ st.completed = ds.length ∧
  (∀ j x, ds.get? j = some x → ds.length ≤ j + WINDOW → st.window (j % WINDOW) = x) ∧
  (ds ≠ [] → st.maxFrameTime = rescan st.window (min ds.length WINDOW))

/-- Two frames: ticks 0 to 16000 and 16000 to 49000. -/
def twoFrames : List Frame := [⟨0, 16000⟩, ⟨16000, 49000⟩]

end dmProfile

/-! # Properties -/

namespace dmProfile

/-! ## Arithmetic of the conversions -/

theorem ticks_lt (tv : timeval) : ticks tv < 2 ^ 64 := by
  unfold ticks toUInt64
  omega

theorem sub64_of_le {a b : Nat} (hab : b ≤ a) (ha : a < 2 ^ 64) : sub64 a b = a - b := by
  unfold sub64 toUInt64
  omega

theorem toInt32_of_range {x : Int} (h1 : -(2 ^ 31) ≤ x) (h2 : x < 2 ^ 31) : toInt32 x = x := by
  unfold toInt32
  omega

theorem toInt32_add_toInt32 (a b : Int) : toInt32 (toInt32 a + b) = toInt32 (a + b) := by
  unfold toInt32
  omega

theorem toInt32_add_toInt32_right (a b : Int) : toInt32 (a + toInt32 b) = toInt32 (a + b) := by
  unfold toInt32
  omega

theorem toInt32_ge (x : Int) : -(2 ^ 31) ≤ toInt32 x := by
  unfold toInt32
  omega

theorem toInt32_lt (x : Int) : toInt32 x < 2 ^ 31 := by
  unfold toInt32
  omega

/-! ## What the destructor stores -/

theorem destruct_sample_start (w : World) (g : ProfileScope) (tv : timeval) :
    ((g.destruct w tv).samples g.m_Sample).m_Start
      = toUInt32 (sub64 g.m_Start w.g_BeginTime) := by
  simp [ProfileScope.destruct, store]

theorem destruct_sample_elapsed (w : World) (g : ProfileScope) (tv : timeval) :
    ((g.destruct w tv).samples g.m_Sample).m_Elapsed = toBits28 (g.diff tv) := by
  simp [ProfileScope.destruct, store]

theorem destruct_scope_elapsed (w : World) (g : ProfileScope) (tv : timeval) :
    ((g.destruct w tv).scopes g.m_Scope).m_Elapsed
      = toInt32 ((w.scopes g.m_Scope).m_Elapsed + toInt32 (g.diff tv : Int)) := by
  simp [ProfileScope.destruct, store, dmAtomicAdd32]

theorem destruct_scope_count (w : World) (g : ProfileScope) (tv : timeval) :
    ((g.destruct w tv).scopes g.m_Scope).m_Count
      = toInt32 ((w.scopes g.m_Scope).m_Count + 1) := by
  simp [ProfileScope.destruct, store, dmAtomicIncrement32]

theorem destruct_scope_other (w : World) (g : ProfileScope) (tv : timeval) (q : Nat)
    (hq : q ≠ g.m_Scope) : (g.destruct w tv).scopes q = w.scopes q := by
  simp [ProfileScope.destruct, store, hq]

theorem construct_scopes (w : World) (scope : Nat) (name : String) (s : Nat) (tv : timeval) :
    (ProfileScope.construct w scope name s tv).2.scopes = w.scopes := by
  simp [ProfileScope.construct]

end dmProfile

namespace dmProfile

/-! ## The sample of one guard -/

/-- C2, as the code has it: for a guard with start tick `s = g.m_Start` and end
tick `e = ticks tv` with `s ≤ e` and `e - s < 2 ^ 28`, the destructor leaves
`e - s` in the owned sample's `m_Elapsed`, and the scope's `m_Elapsed` is its
old value plus the same `e - s`, wrapped to 32 bits. -/
theorem sample_elapsed_within_28_bits (w : World) (g : ProfileScope) (tv : timeval)
    (hle : g.m_Start ≤ ticks tv) (hlt : ticks tv - g.m_Start < 2 ^ 28) :
    ((g.destruct w tv).samples g.m_Sample).m_Elapsed = ticks tv - g.m_Start ∧
    ((g.destruct w tv).scopes g.m_Scope).m_Elapsed
      = toInt32 ((w.scopes g.m_Scope).m_Elapsed + ((ticks tv - g.m_Start : Nat) : Int)) := by
  have he := ticks_lt tv
  have hd : g.diff tv = ticks tv - g.m_Start := sub64_of_le hle he
  refine ⟨?_, ?_⟩
  · rw [destruct_sample_elapsed, hd]
    unfold toBits28
    omega
  · rw [destruct_scope_elapsed, hd, toInt32_add_toInt32_right]

/-- A guard started at tick 100 and destroyed at tick 350: the sample holds 250. -/
theorem sample_elapsed_within_28_bits_witness :
    (((ProfileScope.mk 100 1 1).destruct World.zero ⟨0, 350⟩).samples 1).m_Elapsed = 250 ∧
    (((ProfileScope.mk 100 1 1).destruct World.zero ⟨0, 350⟩).scopes 1).m_Elapsed
      = toInt32 (0 + 250) :=
  sample_elapsed_within_28_bits World.zero (ProfileScope.mk 100 1 1) ⟨0, 350⟩
    (by decide) (by decide)

/-- C2 fails as stated: a guard started at tick 0 and destroyed at tick
`2 ^ 28 = 268435456` has `e ≥ s`, yet the 28-bit field `m_Elapsed` of its
sample holds 0, not `e - s`. -/
theorem sample_elapsed_truncated :
    (ProfileScope.mk 0 1 1).m_Start ≤ ticks ⟨268, 435456⟩ ∧
    (((ProfileScope.mk 0 1 1).destruct World.zero ⟨268, 435456⟩).samples 1).m_Elapsed = 0 ∧
    ticks ⟨268, 435456⟩ - (ProfileScope.mk 0 1 1).m_Start = 268435456 ∧
    (((ProfileScope.mk 0 1 1).destruct World.zero ⟨268, 435456⟩).samples 1).m_Elapsed
      ≠ ticks ⟨268, 435456⟩ - (ProfileScope.mk 0 1 1).m_Start := by
  have h : (((ProfileScope.mk 0 1 1).destruct World.zero ⟨268, 435456⟩).samples 1).m_Elapsed
      = 0 :=
    (destruct_sample_elapsed World.zero (ProfileScope.mk 0 1 1) ⟨268, 435456⟩).trans
      (by decide)
  refine ⟨by decide, h, by decide, ?_⟩
  rw [h]
  decide

/-- C3: for a frame-begin tick `b` and a start tick `s = g.m_Start` with
`0 ≤ s - b < 2 ^ 32`, if `g_BeginTime` holds `b mod 2 ^ 32` then the destructor
leaves `s - b` in the sample's `m_Start`. -/
theorem sample_start_relative_to_begin (w : World) (g : ProfileScope) (tv : timeval) (b : Nat)
    (hb : b ≤ g.m_Start) (hlt : g.m_Start - b < 2 ^ 32)
    (hg : w.g_BeginTime = b % 2 ^ 32) :
    ((g.destruct w tv).samples g.m_Sample).m_Start = g.m_Start - b := by
  rw [destruct_sample_start, hg]
  unfold toUInt32 sub64 toUInt64
  omega

/-- A frame begun at tick `2 ^ 32 + 5` (so `g_BeginTime` holds 5) and a guard
started 7 ticks later. -/
theorem sample_start_relative_to_begin_witness :
    (((ProfileScope.mk 4294967308 1 1).destruct { World.zero with g_BeginTime := 5 }
        ⟨0, 0⟩).samples 1).m_Start = 4294967308 - 4294967301 :=
  sample_start_relative_to_begin { World.zero with g_BeginTime := 5 }
    (ProfileScope.mk 4294967308 1 1) ⟨0, 0⟩ 4294967301
    (by decide) (by decide) (by decide)

/-! ## The accumulators of the scope -/

/-- C4, as the code has it: when the end tick `e = ticks tv` is not before the
start tick `s = g.m_Start`, the scope's two accumulators hold `int32_t` values
and neither addition leaves the `int32_t` range, the destructor adds `e - s`
to `m_Elapsed` and 1 to `m_Count`, so neither is smaller than before. -/
theorem scope_accumulators_grow (w : World) (g : ProfileScope) (tv : timeval)
    (hle : g.m_Start ≤ ticks tv)
    (hE : -(2 ^ 31) ≤ (w.scopes g.m_Scope).m_Elapsed)
    (hsum : (w.scopes g.m_Scope).m_Elapsed + ((ticks tv - g.m_Start : Nat) : Int) < 2 ^ 31)
    (hC : -(2 ^ 31) ≤ (w.scopes g.m_Scope).m_Count)
    (hmax : (w.scopes g.m_Scope).m_Count < 2 ^ 31 - 1) :
    ((g.destruct w tv).scopes g.m_Scope).m_Elapsed
      = (w.scopes g.m_Scope).m_Elapsed + ((ticks tv - g.m_Start : Nat) : Int) ∧
    ((g.destruct w tv).scopes g.m_Scope).m_Count = (w.scopes g.m_Scope).m_Count + 1 ∧
    (w.scopes g.m_Scope).m_Elapsed ≤ ((g.destruct w tv).scopes g.m_Scope).m_Elapsed ∧
    (w.scopes g.m_Scope).m_Count ≤ ((g.destruct w tv).scopes g.m_Scope).m_Count := by
  have he := ticks_lt tv
  have hd : g.diff tv = ticks tv - g.m_Start := sub64_of_le hle he
  have h1 : ((g.destruct w tv).scopes g.m_Scope).m_Elapsed
      = (w.scopes g.m_Scope).m_Elapsed + ((ticks tv - g.m_Start : Nat) : Int) := by
    rw [destruct_scope_elapsed, hd, toInt32_add_toInt32_right]
    exact toInt32_of_range (by omega) hsum
  have h2 : ((g.destruct w tv).scopes g.m_Scope).m_Count
      = (w.scopes g.m_Scope).m_Count + 1 := by
    rw [destruct_scope_count]
    exact toInt32_of_range (by omega) (by omega)
  refine ⟨h1, h2, ?_, ?_⟩
  · rw [h1]; omega
  · rw [h2]; omega

/-- A guard started at tick 100 and destroyed at tick 350 on a zeroed scope. -/
theorem scope_accumulators_grow_witness :
    (((ProfileScope.mk 100 1 1).destruct World.zero ⟨0, 350⟩).scopes 1).m_Elapsed
      = 0 + ((350 - 100 : Nat) : Int) ∧
    (((ProfileScope.mk 100 1 1).destruct World.zero ⟨0, 350⟩).scopes 1).m_Count = 0 + 1 ∧
    (0 : Int) ≤ (((ProfileScope.mk 100 1 1).destruct World.zero ⟨0, 350⟩).scopes 1).m_Elapsed ∧
    (0 : Int) ≤ (((ProfileScope.mk 100 1 1).destruct World.zero ⟨0, 350⟩).scopes 1).m_Count :=
  scope_accumulators_grow World.zero (ProfileScope.mk 100 1 1) ⟨0, 350⟩
    (by decide) (by decide) (by decide) (by decide) (by decide)

/-- C4 fails as stated: a guard constructed when the clock reads tick 1 and
destroyed when it reads tick 0 takes the scope's `m_Elapsed` from 0 to -1. -/
theorem scope_elapsed_decreases :
    (((ProfileScope.construct World.zero 1 "update" 1 ⟨0, 1⟩).1.destruct World.zero
        ⟨0, 0⟩).scopes 1).m_Elapsed = -1 ∧
    (World.zero.scopes 1).m_Elapsed = 0 ∧
    ¬ ((World.zero.scopes 1).m_Elapsed
        ≤ (((ProfileScope.construct World.zero 1 "update" 1 ⟨0, 1⟩).1.destruct World.zero
            ⟨0, 0⟩).scopes 1).m_Elapsed) := by
  have h : (((ProfileScope.construct World.zero 1 "update" 1 ⟨0, 1⟩).1.destruct World.zero
      ⟨0, 0⟩).scopes 1).m_Elapsed = -1 :=
    (destruct_scope_elapsed World.zero
      (ProfileScope.construct World.zero 1 "update" 1 ⟨0, 1⟩).1 ⟨0, 0⟩).trans (by decide)
  refine ⟨h, rfl, ?_⟩
  rw [h]
  decide

/-- C7: neither the constructor nor the destructor of a guard changes the
`m_Name` or the `m_Index` of any scope; the constructor writes no scope at all
and the destructor leaves every scope but the guard's own untouched. -/
theorem guard_keeps_scope_name_and_index (w : World) (scope : Nat) (name : String) (s : Nat)
    (tv : timeval) (g : ProfileScope) (q : Nat) :
    (ProfileScope.construct w scope name s tv).2.scopes q = w.scopes q ∧
    ((g.destruct w tv).scopes q).m_Name = (w.scopes q).m_Name ∧
    ((g.destruct w tv).scopes q).m_Index = (w.scopes q).m_Index ∧
    (g.destruct w tv).scopes q
      = { w.scopes q with
          m_Elapsed := ((g.destruct w tv).scopes q).m_Elapsed
          m_Count := ((g.destruct w tv).scopes q).m_Count } ∧
    (q ≠ g.m_Scope → (g.destruct w tv).scopes q = w.scopes q) := by
  refine ⟨by rw [construct_scopes], ?_, ?_, ?_, fun hq => destruct_scope_other w g tv q hq⟩
  · by_cases hq : q = g.m_Scope <;> simp [ProfileScope.destruct, store, hq]
  · by_cases hq : q = g.m_Scope <;> simp [ProfileScope.destruct, store, hq]
  · by_cases hq : q = g.m_Scope <;> simp [ProfileScope.destruct, store, hq]

end dmProfile

namespace dmProfile

/-! ## Runs of guards on one scope -/

theorem step_construct_scopes (st : World × List ProfileScope) (scope : Nat) (name : String)
    (s : Nat) (tv : timeval) :
    (step st (Event.construct scope name s tv)).1.scopes = st.1.scopes := by
  simp [step, construct_scopes]

/-- Along a run in which every guard is bound to the scope at `p` and measures
`E` ticks, the scope's accumulators are the wrapped sums. -/
theorem run_allOn (p E : Nat) : ∀ (evs : List Event) (st : World × List ProfileScope),
    allOn p E st evs = true →
    toInt32 (st.1.scopes p).m_Elapsed = (st.1.scopes p).m_Elapsed →
    toInt32 (st.1.scopes p).m_Count = (st.1.scopes p).m_Count →
    ((run st evs).1.scopes p).m_Elapsed
      = toInt32 ((st.1.scopes p).m_Elapsed + (destructions evs : Int) * toInt32 (E : Int)) ∧
    ((run st evs).1.scopes p).m_Count
      = toInt32 ((st.1.scopes p).m_Count + (destructions evs : Int)) := by
  intro evs
  induction evs with
  | nil =>
    intro st _ hE hC
    simp [run, destructions, hE, hC]
  | cons ev evs ih =>
    intro st hon hE hC
    simp only [allOn, Bool.and_eq_true] at hon
    obtain ⟨hev, hrest⟩ := hon
    cases ev with
    | construct scope name s tv =>
      have hsc := step_construct_scopes st scope name s tv
      have := ih (step st (Event.construct scope name s tv)) hrest
        (by rw [hsc]; exact hE) (by rw [hsc]; exact hC)
      rw [hsc] at this
      simpa [run, destructions] using this
    | destroy i tv =>
      cases hg : st.2.get? i with
      | none =>
        simp only [eventOn, hg] at hev
        exact Bool.noConfusion hev
      | some g =>
        simp only [eventOn, hg, Bool.and_eq_true, decide_eq_true_eq] at hev
        obtain ⟨hp, hd⟩ := hev
        have hstep : step st (Event.destroy i tv)
            = (g.destruct st.1 tv, st.2.eraseIdx i) := by
          simp only [step, hg]
        have h1 := destruct_scope_elapsed st.1 g tv
        have h2 := destruct_scope_count st.1 g tv
        rw [hp, hd] at h1
        rw [hp] at h2
        have := ih (step st (Event.destroy i tv)) hrest
          (by rw [hstep]; simp only []; rw [h1]; unfold toInt32; omega)
          (by rw [hstep]; simp only []; rw [h2]; unfold toInt32; omega)
        rw [hstep] at this
        simp only [] at this
        rw [h1, h2] at this
        simp only [run, destructions, hstep]
        refine ⟨this.1.trans ?_, this.2.trans ?_⟩
        · rw [toInt32_add_toInt32]
          congr 1
          push_cast
          ring
        · rw [toInt32_add_toInt32]
          congr 1
          push_cast
          ring

/-- Along such a run every destruction removes one guard that is alive. -/
theorem run_alive (p E : Nat) : ∀ (evs : List Event) (st : World × List ProfileScope),
    allOn p E st evs = true →
    st.2.length + constructions evs = destructions evs + (run st evs).2.length := by
  intro evs
  induction evs with
  | nil => intro st _; simp [run, constructions, destructions]
  | cons ev evs ih =>
    intro st hon
    simp only [allOn, Bool.and_eq_true] at hon
    obtain ⟨hev, hrest⟩ := hon
    cases ev with
    | construct scope name s tv =>
      have := ih _ hrest
      simp only [step, List.length_cons] at this
      simp only [run, constructions, destructions, step]
      omega
    | destroy i tv =>
      cases hg : st.2.get? i with
      | none =>
        simp only [eventOn, hg] at hev
        exact Bool.noConfusion hev
      | some g =>
        have hstep : step st (Event.destroy i tv)
            = (g.destruct st.1 tv, st.2.eraseIdx i) := by
          simp only [step, hg]
        have hi : i < st.2.length := by
          rcases List.get?_eq_some.1 hg with ⟨h, _⟩
          exact h
        have := ih _ hrest
        rw [hstep] at this
        simp only [List.length_eraseIdx_of_lt hi] at this
        simp only [run, constructions, destructions, hstep]
        omega

end dmProfile

namespace dmProfile

theorem constructions_burst (p : Nat) : ∀ n, constructions (burst p n) = n := by
  intro n
  induction n with
  | zero => rfl
  | succ n ih => simp [burst, constructions, ih]

theorem destructions_burst (p : Nat) : ∀ n, destructions (burst p n) = n := by
  intro n
  induction n with
  | zero => rfl
  | succ n ih => simp [burst, destructions, ih]

theorem diff_self_zero : (ProfileScope.mk (ticks ⟨0, 0⟩) 1 1).diff ⟨0, 0⟩ = 0 := by
  decide

theorem allOn_burst (p : Nat) : ∀ (n : Nat) (w : World),
    allOn p 0 (w, []) (burst p n) = true := by
  intro n
  induction n with
  | zero => intro w; rfl
  | succ n ih =>
    intro w
    have h := ih ((ProfileScope.construct w p "burst" 1 ⟨0, 0⟩).1.destruct
      (ProfileScope.construct w p "burst" 1 ⟨0, 0⟩).2 ⟨0, 0⟩)
    have hd : (ProfileScope.construct w p "burst" 1 ⟨0, 0⟩).1.diff ⟨0, 0⟩ = 0 :=
      diff_self_zero
    simp only [burst, allOn, eventOn, step, List.get?, List.eraseIdx, decide_True,
      Bool.true_and, Bool.and_eq_true, decide_eq_true_eq]
    exact ⟨⟨rfl, hd⟩, h⟩

theorem run_burst_alive (p : Nat) : ∀ (n : Nat) (w : World),
    (run (w, []) (burst p n)).2 = [] := by
  intro n
  induction n with
  | zero => intro w; rfl
  | succ n ih =>
    intro w
    simp only [burst, run, step, List.get?, List.eraseIdx]
    exact ih _

/-- C1, as the code has it: on a scope whose `m_Elapsed` and `m_Count` are 0,
after a run of events in which `n` guards bound to that scope are constructed
and destroyed in any order, each destructor measuring `E` ticks, with
`n < 2 ^ 31` and `n * E < 2 ^ 31`, the scope's `m_Elapsed` is `n * E` and its
`m_Count` is `n`. -/
theorem sequential_aggregation (w : World) (p E : Nat) (evs : List Event)
    (hE0 : (w.scopes p).m_Elapsed = 0) (hC0 : (w.scopes p).m_Count = 0)
    (hon : allOn p E (w, []) evs = true) (hdone : (run (w, []) evs).2 = [])
    (hn : constructions evs < 2 ^ 31) (hnE : constructions evs * E < 2 ^ 31) :
    ((run (w, []) evs).1.scopes p).m_Elapsed = ((constructions evs * E : Nat) : Int) ∧
    ((run (w, []) evs).1.scopes p).m_Count = (constructions evs : Int) := by
  have hlen := run_alive p E evs (w, []) hon
  rw [hdone] at hlen
  simp only [List.length_nil, Nat.zero_add, Nat.add_zero] at hlen
  have hrun := run_allOn p E evs (w, []) hon
    (by simp only [hE0]; decide) (by simp only [hC0]; decide)
  simp only [hE0, hC0, Int.zero_add] at hrun
  rw [← hlen] at hrun
  obtain ⟨h1, h2⟩ := hrun
  refine ⟨?_, ?_⟩
  · rw [h1]
    rcases Nat.eq_zero_or_pos (constructions evs) with h0 | hpos
    · rw [h0]
      simp only [Nat.cast_zero, Int.zero_mul, Nat.zero_mul]
      decide
    · have hE : E ≤ constructions evs * E := Nat.le_mul_of_pos_left E hpos
      have hEr : toInt32 (E : Int) = (E : Int) := toInt32_of_range (by omega) (by omega)
      rw [hEr, ← Nat.cast_mul]
      exact toInt32_of_range (by omega) (by omega)
  · rw [h2]
    exact toInt32_of_range (by omega) (by omega)

/-- Three guards of 5 ticks each, two of them nested: 15 ticks and 3 occurrences. -/
theorem sequential_aggregation_witness :
    ((run (World.zero, []) threeGuards).1.scopes 1).m_Elapsed
      = ((constructions threeGuards * 5 : Nat) : Int) ∧
    ((run (World.zero, []) threeGuards).1.scopes 1).m_Count
      = (constructions threeGuards : Int) :=
  sequential_aggregation World.zero 1 5 threeGuards rfl rfl (by decide) (by decide)
    (by decide) (by decide)

/-- C1 fails as stated: with `E = 0` and `n = 2 ^ 31` guards, each constructed
and destroyed on a zeroed scope, `n * E < 2 ^ 31` holds and the `int32_t`
counter `m_Count` ends at `-2 ^ 31`, not at `n`. -/
theorem sequential_count_wraps :
    allOn 1 0 (World.zero, []) (burst 1 (2 ^ 31)) = true ∧
    (run (World.zero, []) (burst 1 (2 ^ 31))).2 = [] ∧
    constructions (burst 1 (2 ^ 31)) = 2 ^ 31 ∧
    constructions (burst 1 (2 ^ 31)) * 0 < 2 ^ 31 ∧
    ((run (World.zero, []) (burst 1 (2 ^ 31))).1.scopes 1).m_Count = -(2 ^ 31) ∧
    ((run (World.zero, []) (burst 1 (2 ^ 31))).1.scopes 1).m_Count
      ≠ (constructions (burst 1 (2 ^ 31)) : Int) := by
  have hon := allOn_burst 1 (2 ^ 31) World.zero
  have hrun := (run_allOn 1 0 (burst 1 (2 ^ 31)) (World.zero, []) hon
    (by decide) (by decide)).2
  rw [destructions_burst] at hrun
  have hval : ((run (World.zero, []) (burst 1 (2 ^ 31))).1.scopes 1).m_Count = -(2 ^ 31) :=
    hrun.trans (by decide)
  refine ⟨hon, run_burst_alive 1 _ World.zero, constructions_burst 1 _, ?_, hval, ?_⟩
  · rw [constructions_burst]; decide
  · rw [hval, constructions_burst]; decide

/-- C5 on the code: a guard on the scope at address 1 is constructed and
destroyed while another guard on the same scope is alive; over the lifetime
of the outer guard `m_Count` goes from 0 to 2, not to 1. -/
theorem nested_guard_counts_twice :
    (World.zero.scopes 1).m_Count = 0 ∧
    (run (World.zero, []) (nestedGuards.take 2)).2.length = 2 ∧
    (run (World.zero, []) (nestedGuards.take 3)).2.length = 1 ∧
    (run (World.zero, []) nestedGuards).2 = [] ∧
    ((run (World.zero, []) nestedGuards).1.scopes 1).m_Count = 2 := by
  refine ⟨rfl, by decide, by decide, by decide, by decide⟩

end dmProfile

namespace dmProfile

/-! ## The call-site cache of `DM_PROFILE` -/

theorem callsOf_append (c : Nat) (l m : List (Nat × Nat)) :
    callsOf c (l ++ m) = callsOf c l ++ callsOf c m := by
  simp [callsOf]

theorem callsOf_single (c d h : Nat) :
    callsOf c [(d, h)] = if d = c then [(d, h)] else [] := by
  by_cases hd : d = c <;> simp [callsOf, hd]

theorem cache_of_null {σ : Type} (A : σ → String → Nat × σ) (st : Sites σ) (x : Execution)
    (h0 : st.statics x.site = 0) :
    (DM_PROFILE.cache A st x).statics = store st.statics x.site (A st.registry x.scope_name).1 ∧
    (DM_PROFILE.cache A st x).allocated
      = st.allocated ++ [(x.site, (A st.registry x.scope_name).1)] ∧
    (DM_PROFILE.cache A st x).guards = st.guards := by
  simp [DM_PROFILE.cache, h0]

theorem cache_of_set {σ : Type} (A : σ → String → Nat × σ) (st : Sites σ) (x : Execution)
    (h0 : st.statics x.site ≠ 0) : DM_PROFILE.cache A st x = st := by
  simp [DM_PROFILE.cache, h0]

theorem cache_consistent {σ : Type} (A : σ → String → Nat × σ)
    (hA : ∀ r name, (A r name).1 ≠ 0) (st : Sites σ) (x : Execution)
    (hst : st.Consistent) : (DM_PROFILE.cache A st x).Consistent := by
  by_cases h0 : st.statics x.site = 0
  · obtain ⟨hs, ha, hg⟩ := cache_of_null A st x h0
    obtain ⟨i1, i2, i3⟩ := hst
    have hne := hA st.registry x.scope_name
    refine ⟨?_, ?_, ?_⟩
    · intro c hc
      rw [hs] at hc
      rw [ha, callsOf_append, callsOf_single]
      by_cases hcx : c = x.site
      · simp [store, hcx] at hc
        exact absurd hc hne
      · simp only [store, hcx, if_false] at hc
        rw [i1 c hc, if_neg (fun h => hcx h.symm)]
        rfl
    · intro c hc
      rw [hs] at hc ⊢
      rw [ha, callsOf_append, callsOf_single]
      by_cases hcx : c = x.site
      · subst hcx
        simp [store, i1 _ h0]
      · simp only [store, hcx, if_false] at hc ⊢
        rw [i2 c hc, if_neg (fun h => hcx h.symm)]
        rfl
    · intro c g hcg
      rw [hg] at hcg
      obtain ⟨j1, j2⟩ := i3 c g hcg
      have hcx : c ≠ x.site := fun h => j1 (h ▸ h0)
      rw [hs]
      simp only [store, hcx, if_false]
      exact ⟨j1, j2⟩
  · rw [cache_of_set A st x h0]
    exact hst

theorem cache_static_set {σ : Type} (A : σ → String → Nat × σ)
    (hA : ∀ r name, (A r name).1 ≠ 0) (st : Sites σ) (x : Execution) :
    (DM_PROFILE.cache A st x).statics x.site ≠ 0 := by
  by_cases h0 : st.statics x.site = 0
  · rw [(cache_of_null A st x h0).1]
    simp only [store, if_true]
    exact hA _ _
  · rw [cache_of_set A st x h0]
    exact h0

theorem cache_static_other {σ : Type} (A : σ → String → Nat × σ) (st : Sites σ)
    (x : Execution) (c : Nat) (hc : c ≠ x.site) :
    (DM_PROFILE.cache A st x).statics c = st.statics c ∧
    callsOf c (DM_PROFILE.cache A st x).allocated = callsOf c st.allocated := by
  by_cases h0 : st.statics x.site = 0
  · obtain ⟨hs, ha, _⟩ := cache_of_null A st x h0
    rw [hs, ha, callsOf_append, callsOf_single, if_neg (fun h => hc h.symm)]
    simp [store, hc]
  · rw [cache_of_set A st x h0]
    exact ⟨rfl, rfl⟩

theorem DM_PROFILE_fields {σ : Type} (A : σ → String → Nat × σ) (st : Sites σ)
    (x : Execution) :
    (DM_PROFILE A st x).statics = (DM_PROFILE.cache A st x).statics ∧
    (DM_PROFILE A st x).allocated = (DM_PROFILE.cache A st x).allocated ∧
    (DM_PROFILE A st x).guards = (DM_PROFILE.cache A st x).guards ++
      [(x.site, (ProfileScope.construct (DM_PROFILE.cache A st x).world
        ((DM_PROFILE.cache A st x).statics x.site) x.name x.s x.tv).1)] :=
  ⟨rfl, rfl, rfl⟩

theorem DM_PROFILE_consistent {σ : Type} (A : σ → String → Nat × σ)
    (hA : ∀ r name, (A r name).1 ≠ 0) (st : Sites σ) (x : Execution)
    (hst : st.Consistent) : (DM_PROFILE A st x).Consistent := by
  obtain ⟨hs, ha, hg⟩ := DM_PROFILE_fields A st x
  obtain ⟨i1, i2, i3⟩ := cache_consistent A hA st x hst
  refine ⟨?_, ?_, ?_⟩
  · intro c hc
    rw [hs] at hc
    rw [ha]
    exact i1 c hc
  · intro c hc
    rw [hs] at hc ⊢
    rw [ha]
    exact i2 c hc
  · intro c g hcg
    rw [hg, List.mem_append, List.mem_singleton] at hcg
    rw [hs]
    rcases hcg with hcg | hcg
    · exact i3 c g hcg
    · obtain ⟨hc, hgv⟩ := Prod.mk.inj hcg
      subst hc
      subst hgv
      exact ⟨cache_static_set A hA st x, rfl⟩

theorem runSites_consistent {σ : Type} (A : σ → String → Nat × σ)
    (hA : ∀ r name, (A r name).1 ≠ 0) : ∀ (xs : List Execution) (st : Sites σ),
    st.Consistent → (runSites A st xs).Consistent := by
  intro xs
  induction xs with
  | nil => intro st hst; exact hst
  | cons x xs ih =>
    intro st hst
    exact ih _ (DM_PROFILE_consistent A hA st x hst)

theorem runSites_static_kept {σ : Type} (A : σ → String → Nat × σ) :
    ∀ (xs : List Execution) (st : Sites σ) (c : Nat),
    st.statics c ≠ 0 → (runSites A st xs).statics c ≠ 0 := by
  intro xs
  induction xs with
  | nil => intro st c hc; exact hc
  | cons x xs ih =>
    intro st c hc
    refine ih _ c ?_
    rw [(DM_PROFILE_fields A st x).1]
    by_cases hcx : c = x.site
    · subst hcx
      by_cases h0 : st.statics x.site = 0
      · exact absurd h0 hc
      · rw [cache_of_set A st x h0]; exact hc
    · rw [(cache_static_other A st x c hcx).1]; exact hc

theorem runSites_executed {σ : Type} (A : σ → String → Nat × σ)
    (hA : ∀ r name, (A r name).1 ≠ 0) : ∀ (xs : List Execution) (st : Sites σ) (c : Nat),
    c ∈ xs.map Execution.site → (runSites A st xs).statics c ≠ 0 := by
  intro xs
  induction xs with
  | nil => intro st c hc; simp at hc
  | cons x xs ih =>
    intro st c hc
    rw [List.map_cons, List.mem_cons] at hc
    rcases hc with hc | hc
    · subst hc
      refine runSites_static_kept A xs _ _ ?_
      rw [(DM_PROFILE_fields A st x).1]
      exact cache_static_set A hA st x
    · exact ih _ c hc

theorem runSites_not_executed {σ : Type} (A : σ → String → Nat × σ) :
    ∀ (xs : List Execution) (st : Sites σ) (c : Nat),
    c ∉ xs.map Execution.site →
    (runSites A st xs).statics c = st.statics c ∧
    callsOf c (runSites A st xs).allocated = callsOf c st.allocated := by
  intro xs
  induction xs with
  | nil => intro st c _; exact ⟨rfl, rfl⟩
  | cons x xs ih =>
    intro st c hc
    rw [List.map_cons, List.mem_cons, not_or] at hc
    obtain ⟨h1, h2⟩ := ih (DM_PROFILE A st x) c hc.2
    obtain ⟨k1, k2⟩ := cache_static_other A st x c hc.1
    refine ⟨?_, ?_⟩
    · show (runSites A (DM_PROFILE A st x) xs).statics c = _
      rw [h1, (DM_PROFILE_fields A st x).1, k1]
    · show callsOf c (runSites A (DM_PROFILE A st x) xs).allocated = _
      rw [h2, (DM_PROFILE_fields A st x).2.1, k2]

theorem runSites_guards {σ : Type} (A : σ → String → Nat × σ) :
    ∀ (xs : List Execution) (st : Sites σ),
    (runSites A st xs).guards.map Prod.fst
      = st.guards.map Prod.fst ++ xs.map Execution.site := by
  intro xs
  induction xs with
  | nil => intro st; simp [runSites]
  | cons x xs ih =>
    intro st
    show (runSites A (DM_PROFILE A st x) xs).guards.map Prod.fst = _
    rw [ih, (DM_PROFILE_fields A st x).2.2]
    have hg : (DM_PROFILE.cache A st x).guards = st.guards := by
      by_cases h0 : st.statics x.site = 0
      · exact (cache_of_null A st x h0).2.2
      · rw [cache_of_set A st x h0]
    rw [hg]
    simp

theorem runSites_allocations {σ : Type} (A : σ → String → Nat × σ)
    (hA : ∀ r name, (A r name).1 ≠ 0) :
    ∀ (xs : List Execution) (st : Sites σ) (seen : List Nat),
    (∀ c, c ∈ seen ↔ st.statics c ≠ 0) →
    (runSites A st xs).registry = (allocateEach A st.registry (firstExecutions seen xs)).2 ∧
    (runSites A st xs).allocated
      = st.allocated ++ (allocateEach A st.registry (firstExecutions seen xs)).1 := by
  intro xs
  induction xs with
  | nil =>
    intro st seen _
    simp [runSites, firstExecutions, allocateEach]
  | cons x xs ih =>
    intro st seen hseen
    show (runSites A (DM_PROFILE A st x) xs).registry = _ ∧
      (runSites A (DM_PROFILE A st x) xs).allocated = _
    by_cases hx : x.site ∈ seen
    · have h0 : st.statics x.site ≠ 0 := (hseen _).1 hx
      have hreg : (DM_PROFILE A st x).registry = st.registry := by
        show (DM_PROFILE.cache A st x).registry = _
        rw [cache_of_set A st x h0]
      have hall : (DM_PROFILE A st x).allocated = st.allocated := by
        show (DM_PROFILE.cache A st x).allocated = _
        rw [cache_of_set A st x h0]
      have hstat : (DM_PROFILE A st x).statics = st.statics := by
        show (DM_PROFILE.cache A st x).statics = _
        rw [cache_of_set A st x h0]
      have h := ih (DM_PROFILE A st x) seen (by intro c; rw [hstat]; exact hseen c)
      rw [hreg, hall] at h
      simp only [firstExecutions, if_pos hx]
      exact h
    · have h0 : st.statics x.site = 0 := by
        by_contra hne
        exact hx ((hseen _).2 hne)
      have hreg : (DM_PROFILE A st x).registry = (A st.registry x.scope_name).2 := by
        show (DM_PROFILE.cache A st x).registry = _
        simp [DM_PROFILE.cache, h0]
      have hall : (DM_PROFILE A st x).allocated
          = st.allocated ++ [(x.site, (A st.registry x.scope_name).1)] :=
        (cache_of_null A st x h0).2.1
      have hstat : (DM_PROFILE A st x).statics
          = store st.statics x.site (A st.registry x.scope_name).1 :=
        (cache_of_null A st x h0).1
      have h := ih (DM_PROFILE A st x) (x.site :: seen) (by
        intro c
        rw [hstat, List.mem_cons]
        by_cases hc : c = x.site
        · subst hc
          simp [store, hA]
        · simp only [store, hc, if_false, false_or]
          exact hseen c)
      rw [hreg, hall] at h
      simp only [firstExecutions, if_neg hx, allocateEach]
      refine ⟨h.1, ?_⟩
      rw [h.2, List.append_assoc]
      rfl

/-- C6: when `AllocateScope` never returns null, after any sequence of
`DM_PROFILE` executions that starts with every static null, one guard has been
constructed per execution; `AllocateScope` has been called once at the first
execution of each distinct call site, in that order, and at no other time:
the registry is the one these calls leave, each on the registry left by the
call before, and the recorded calls are these calls with the pointers they
returned (two sites with one scope name have one call each); each executed
site has exactly one of these calls, the pointer it returned is not null and
every guard constructed at that site is bound to it; a site that was not
executed has no call. -/
theorem call_site_caching {σ : Type} (AllocateScope : σ → String → Nat × σ)
    (hA : ∀ r name, (AllocateScope r name).1 ≠ 0) (registry : σ) (world : World)
    (xs : List Execution) :
    (runSites AllocateScope (Sites.start registry world) xs).guards.map Prod.fst
      = xs.map Execution.site ∧
    (runSites AllocateScope (Sites.start registry world) xs).registry
      = (allocateEach AllocateScope registry (firstExecutions [] xs)).2 ∧
    (runSites AllocateScope (Sites.start registry world) xs).allocated
      = (allocateEach AllocateScope registry (firstExecutions [] xs)).1 ∧
    (∀ c, c ∈ xs.map Execution.site → ∃ h, h ≠ 0 ∧
      callsOf c (allocateEach AllocateScope registry (firstExecutions [] xs)).1 = [(c, h)] ∧
      ∀ g, (c, g) ∈ (runSites AllocateScope (Sites.start registry world) xs).guards →
        g.m_Scope = h) ∧
    (∀ c, c ∉ xs.map Execution.site →
      callsOf c (allocateEach AllocateScope registry (firstExecutions [] xs)).1 = []) := by
  have hstart : (Sites.start registry world).Consistent := by
    refine ⟨fun _ _ => rfl, fun c hc => absurd rfl hc, fun c g hcg => ?_⟩
    simp [Sites.start] at hcg
  obtain ⟨_, i2, i3⟩ := runSites_consistent AllocateScope hA xs _ hstart
  obtain ⟨hreg, hall⟩ := runSites_allocations AllocateScope hA xs (Sites.start registry world)
    [] (fun c => ⟨fun hc => absurd hc (List.not_mem_nil c), fun hc => absurd rfl hc⟩)
  have hall1 : (runSites AllocateScope (Sites.start registry world) xs).allocated
      = (allocateEach AllocateScope registry (firstExecutions [] xs)).1 := by
    rw [hall]
    exact List.nil_append _
  refine ⟨?_, hreg, hall1, ?_, ?_⟩
  · rw [runSites_guards]
    rfl
  · intro c hc
    have hne := runSites_executed AllocateScope hA xs (Sites.start registry world) c hc
    refine ⟨_, hne, ?_, fun g hg => (i3 c g hg).2⟩
    rw [← hall1]
    exact i2 c hne
  · intro c hc
    rw [← hall1, (runSites_not_executed AllocateScope xs (Sites.start registry world) c hc).2]
    rfl

/-- Two call sites that name the same scope, over a registry that counts the
calls of `AllocateScope` and hands out the addresses 1, 2, 3, ... -/
theorem call_site_caching_witness :
    (∀ r name, (countingAllocateScope r name).1 ≠ 0) ∧
    ((runSites countingAllocateScope (Sites.start 0 World.zero) sharedNameRun).guards.map
        Prod.fst = sharedNameRun.map Execution.site ∧
      (runSites countingAllocateScope (Sites.start 0 World.zero) sharedNameRun).registry
        = (allocateEach countingAllocateScope 0 (firstExecutions [] sharedNameRun)).2 ∧
      (runSites countingAllocateScope (Sites.start 0 World.zero) sharedNameRun).allocated
        = (allocateEach countingAllocateScope 0 (firstExecutions [] sharedNameRun)).1 ∧
      (∀ c, c ∈ sharedNameRun.map Execution.site → ∃ h, h ≠ 0 ∧
        callsOf c (allocateEach countingAllocateScope 0
          (firstExecutions [] sharedNameRun)).1 = [(c, h)] ∧
        ∀ g, (c, g) ∈ (runSites countingAllocateScope (Sites.start 0 World.zero)
          sharedNameRun).guards → g.m_Scope = h) ∧
      (∀ c, c ∉ sharedNameRun.map Execution.site →
        callsOf c (allocateEach countingAllocateScope 0
          (firstExecutions [] sharedNameRun)).1 = [])) :=
  ⟨fun r _ => Nat.succ_ne_zero r,
    call_site_caching countingAllocateScope (fun r _ => Nat.succ_ne_zero r) 0 World.zero
      sharedNameRun⟩

/-- The same run evaluated: of the three executions the first two are first
executions of a site; `AllocateScope` was called twice (the registry counts
2), site 10 and site 20 each got one scope although both name `Update`, and
the three guards are bound to the cached pointers. -/
theorem sharedNameRun_evaluated :
    (firstExecutions [] sharedNameRun).map Execution.name = ["first", "second"] ∧
    allocateEach countingAllocateScope 0 (firstExecutions [] sharedNameRun)
      = ([(10, 1), (20, 2)], 2) ∧
    (runSites countingAllocateScope (Sites.start 0 World.zero) sharedNameRun).registry = 2 ∧
    (runSites countingAllocateScope (Sites.start 0 World.zero) sharedNameRun).allocated
      = [(10, 1), (20, 2)] ∧
    (runSites countingAllocateScope (Sites.start 0 World.zero) sharedNameRun).guards.map
      (fun e => (e.1, e.2.m_Scope)) = [(10, 1), (20, 2), (10, 1)] := by
  decide

theorem allocateEach_countCalls {σ : Type} (A : σ → String → Nat × σ) :
    ∀ (ys : List Execution) (r : σ) (k : Nat),
    (allocateEach (countCalls A) (r, k) ys).2.2 = k + ys.length := by
  intro ys
  induction ys with
  | nil => intro r k; rfl
  | cons y ys ih =>
    intro r k
    show (allocateEach (countCalls A) ((A r y.scope_name).2, k + 1) ys).2.2 = _
    rw [ih, List.length_cons]
    omega

/-- The number of `AllocateScope` calls made by a sequence of `DM_PROFILE`
executions is the number of first executions of a call site. -/
theorem allocateScope_call_count {σ : Type} (AllocateScope : σ → String → Nat × σ)
    (hA : ∀ r name, (AllocateScope r name).1 ≠ 0) (registry : σ) (world : World)
    (xs : List Execution) :
    (runSites (countCalls AllocateScope) (Sites.start (registry, 0) world) xs).registry.2
      = (firstExecutions [] xs).length := by
  have h := (runSites_allocations (countCalls AllocateScope) (fun r name => hA r.1 name) xs
    (Sites.start (registry, 0) world) []
    (fun c => ⟨fun hc => absurd hc (List.not_mem_nil c), fun hc => absurd rfl hc⟩)).1
  rw [h]
  show (allocateEach (countCalls AllocateScope) (registry, 0) (firstExecutions [] xs)).2.2 = _
  rw [allocateEach_countCalls]
  omega

/-- The sites of the first executions are the sites executed, each once. -/
theorem firstExecutions_sites : ∀ (xs : List Execution) (seen : List Nat),
    ((firstExecutions seen xs).map Execution.site).Nodup ∧
    ∀ c, c ∈ (firstExecutions seen xs).map Execution.site
      ↔ c ∈ xs.map Execution.site ∧ c ∉ seen := by
  intro xs
  induction xs with
  | nil =>
    intro seen
    simp [firstExecutions]
  | cons x xs ih =>
    intro seen
    by_cases hx : x.site ∈ seen
    · simp only [firstExecutions, if_pos hx]
      refine ⟨(ih seen).1, fun c => ?_⟩
      rw [(ih seen).2 c, List.map_cons, List.mem_cons]
      constructor
      · exact fun h => ⟨Or.inr h.1, h.2⟩
      · rintro ⟨h1 | h1, h2⟩
        · exact absurd (h1 ▸ hx) h2
        · exact ⟨h1, h2⟩
    · simp only [firstExecutions, if_neg hx, List.map_cons, List.nodup_cons, List.mem_cons]
      obtain ⟨i1, i2⟩ := ih (x.site :: seen)
      refine ⟨⟨fun h => ?_, i1⟩, fun c => ?_⟩
      · exact ((i2 _).1 h).2 (List.mem_cons_self _ _)
      · rw [i2 c, List.mem_cons, not_or]
        constructor
        · rintro (h | ⟨h1, h2, h3⟩)
          · exact ⟨Or.inl h, h ▸ hx⟩
          · exact ⟨Or.inr h1, h3⟩
        · rintro ⟨h1 | h1, h2⟩
          · exact Or.inl h1
          · by_cases hc : c = x.site
            · exact Or.inl hc
            · exact Or.inr ⟨h1, hc, h2⟩

end dmProfile

namespace dmScript

/-! ## Registration of DDF types -/

theorem RefTable.ops_lawful (V : Type) : (RefTable.ops V).Lawful := by
  refine ⟨?_, ?_⟩
  · intro t k v _
    simp [RefTable.ops]
  · intro t k v j _ hj
    simp [RefTable.ops, hj]

/-- C8: over a table whose `Put` and `Get` keep their contract,
`RegisterDDFType` on a full table returns false and leaves the context as it
was; on a table that is not full it returns true, the key
`dmHashString64(descriptor->m_Name)` then yields the descriptor and every
other key yields what it did before. -/
theorem register_ddf_type {T : Type} (ops : HashTableOps T Descriptor) (hops : ops.Lawful)
    (dmHashString64 : String → Nat) (context : Context T) (descriptor : Descriptor) :
    (ops.Full context.m_Descriptors = true →
      (RegisterDDFType ops dmHashString64 context descriptor).1 = false ∧
      (RegisterDDFType ops dmHashString64 context descriptor).2.1 = context) ∧
    (ops.Full context.m_Descriptors = false →
      (RegisterDDFType ops dmHashString64 context descriptor).1 = true ∧
      ops.Get (RegisterDDFType ops dmHashString64 context descriptor).2.1.m_Descriptors
        (dmHashString64 descriptor.m_Name) = some descriptor ∧
      ∀ j, j ≠ dmHashString64 descriptor.m_Name →
        ops.Get (RegisterDDFType ops dmHashString64 context descriptor).2.1.m_Descriptors j
          = ops.Get context.m_Descriptors j) := by
  refine ⟨?_, ?_⟩
  · intro hfull
    simp [RegisterDDFType, hfull]
  · intro hfree
    simp only [RegisterDDFType, hfree, Bool.false_eq_true, if_false]
    exact ⟨trivial, hops.1 _ _ _ hfree, fun j hj => hops.2 _ _ _ j hfree hj⟩

/-- The type `ping` registered in a fresh context over the reference table. -/
theorem register_ddf_type_witness :
    ((RefTable.ops Descriptor).Full
        (NewContext (RefTable.ops Descriptor) (RefTable.empty Descriptor)).m_Descriptors = true →
      (RegisterDDFType (RefTable.ops Descriptor) lengthHash
        (NewContext (RefTable.ops Descriptor) (RefTable.empty Descriptor)) ⟨"ping", 8⟩).1 = false ∧
      (RegisterDDFType (RefTable.ops Descriptor) lengthHash
        (NewContext (RefTable.ops Descriptor) (RefTable.empty Descriptor)) ⟨"ping", 8⟩).2.1
        = NewContext (RefTable.ops Descriptor) (RefTable.empty Descriptor)) ∧
    ((RefTable.ops Descriptor).Full
        (NewContext (RefTable.ops Descriptor) (RefTable.empty Descriptor)).m_Descriptors = false →
      (RegisterDDFType (RefTable.ops Descriptor) lengthHash
        (NewContext (RefTable.ops Descriptor) (RefTable.empty Descriptor)) ⟨"ping", 8⟩).1 = true ∧
      (RefTable.ops Descriptor).Get
        (RegisterDDFType (RefTable.ops Descriptor) lengthHash
          (NewContext (RefTable.ops Descriptor) (RefTable.empty Descriptor))
          ⟨"ping", 8⟩).2.1.m_Descriptors
        (lengthHash (Descriptor.mk "ping" 8).m_Name) = some ⟨"ping", 8⟩ ∧
      ∀ j, j ≠ lengthHash (Descriptor.mk "ping" 8).m_Name →
        (RefTable.ops Descriptor).Get
          (RegisterDDFType (RefTable.ops Descriptor) lengthHash
            (NewContext (RefTable.ops Descriptor) (RefTable.empty Descriptor))
            ⟨"ping", 8⟩).2.1.m_Descriptors j
          = (RefTable.ops Descriptor).Get
            (NewContext (RefTable.ops Descriptor) (RefTable.empty Descriptor)).m_Descriptors j) :=
  register_ddf_type (RefTable.ops Descriptor) (RefTable.ops_lawful Descriptor) lengthHash
    (NewContext (RefTable.ops Descriptor) (RefTable.empty Descriptor)) ⟨"ping", 8⟩

end dmScript

namespace dmProfile

/-! ## Construction of a guard -/

/-- C17: constructing a guard calls `AllocateSample` once and then reads the
clock once, sets `m_Name` and `m_Scope` of the sample it got, stores the
sample, the scope and the start tick in the guard, and leaves `m_Start` and
`m_Elapsed` of every sample as they were (the destructor stores them); no
other sample is written. -/
theorem guard_construction (w : World) (scope : Nat) (name : String) (s : Nat) (tv : timeval) :
    (ProfileScope.construct w scope name s tv).2.calls
      = w.calls ++ [Call.AllocateSample, Call.gettimeofday] ∧
    ((ProfileScope.construct w scope name s tv).2.samples s).m_Name = name ∧
    ((ProfileScope.construct w scope name s tv).2.samples s).m_Scope = scope ∧
    (ProfileScope.construct w scope name s tv).1.m_Sample = s ∧
    (ProfileScope.construct w scope name s tv).1.m_Scope = scope ∧
    (ProfileScope.construct w scope name s tv).1.m_Start = ticks tv ∧
    (∀ q, ((ProfileScope.construct w scope name s tv).2.samples q).m_Start
        = (w.samples q).m_Start ∧
      ((ProfileScope.construct w scope name s tv).2.samples q).m_Elapsed
        = (w.samples q).m_Elapsed) ∧
    (∀ q, q ≠ s → (ProfileScope.construct w scope name s tv).2.samples q = w.samples q) ∧
    (∀ (w1 : World) (end_tv : timeval),
      (((ProfileScope.construct w scope name s tv).1.destruct w1 end_tv).samples s).m_Start
        = toUInt32 (sub64 (ticks tv) w1.g_BeginTime) ∧
      (((ProfileScope.construct w scope name s tv).1.destruct w1 end_tv).samples s).m_Elapsed
        = toBits28 (sub64 (ticks end_tv) (ticks tv))) := by
  refine ⟨?_, ?_, ?_, rfl, rfl, rfl, ?_, ?_, ?_⟩
  · simp [ProfileScope.construct]
  · simp [ProfileScope.construct, store]
  · simp [ProfileScope.construct, store]
  · intro q
    by_cases hq : q = s <;> simp [ProfileScope.construct, store, hq]
  · intro q hq
    simp [ProfileScope.construct, store, hq]
  · intro w1 end_tv
    exact ⟨destruct_sample_start w1 _ end_tv, destruct_sample_elapsed w1 _ end_tv⟩

end dmProfile

namespace dmProfile

/-! ## The rolling maximum of the frame controller -/

theorem rescan_isGreatest (window : Nat → ℚ) :
    ∀ n, IsGreatest {x | ∃ i, i < n + 1 ∧ window i = x} (rescan window (n + 1)) := by
  intro n
  induction n with
  | zero =>
    refine ⟨⟨0, by omega, rfl⟩, ?_⟩
    rintro x ⟨i, hi, rfl⟩
    have : i = 0 := by omega
    subst this
    exact le_refl _
  | succ n ih =>
    have hdef : rescan window (n + 1 + 1) = max (rescan window (n + 1)) (window (n + 1)) := rfl
    rw [hdef]
    refine ⟨?_, ?_⟩
    · rcases max_choice (rescan window (n + 1)) (window (n + 1)) with h | h
      · rw [h]
        obtain ⟨i, hi, hx⟩ := ih.1
        exact ⟨i, by omega, hx⟩
      · rw [h]
        exact ⟨n + 1, by omega, rfl⟩
    · rintro x ⟨i, hi, rfl⟩
      by_cases hin : i < n + 1
      · exact le_trans (ih.2 ⟨i, hin, rfl⟩) (le_max_left _ _)
      · have : i = n + 1 := by omega
        subst this
        exact le_max_right _ _

theorem End_Begin_holds (tps : Nat) (st : FrameState) (ds : List ℚ) (f : Frame)
    (h : st.Holds ds) :
    (End tps (Begin st f.start) f.stop).Holds (ds ++ [f.duration tps]) := by
  obtain ⟨h1, h2, h3, _⟩ := h
  have hb : Begin st f.start = { st with inFrame := true, beginTick := f.start } := by
    simp [Begin, h1]
  rw [hb]
  simp only [End, if_true]
  refine ⟨rfl, ?_, ?_, ?_⟩
  · simp [h2]
  · intro j x hj hlen
    simp only [List.length_append, List.length_singleton] at hlen
    simp only [store, h2]
    by_cases hjk : j = ds.length
    · subst hjk
      have hx : x = f.duration tps := by
        have := hj
        rw [List.get?_eq_getElem?, List.getElem?_append_right (le_refl _)] at this
        simpa using this.symm
      simp [hx, Frame.duration]
    · have hjlt : j < ds.length := by
        have := (List.get?_eq_some.1 hj).1
        simp only [List.length_append, List.length_singleton] at this
        omega
      have hne : ¬ (j % WINDOW = ds.length % WINDOW) := by
        unfold WINDOW at hlen ⊢
        omega
      rw [if_neg hne]
      refine h3 j x ?_ (by omega)
      rw [List.get?_eq_getElem?, List.getElem?_append_left hjlt] at hj
      rw [List.get?_eq_getElem?]
      exact hj
  · intro _
    simp [h2]

theorem runFrames_holds (tps : Nat) : ∀ (fs : List Frame) (st : FrameState) (ds : List ℚ),
    st.Holds ds → (runFrames tps st fs).Holds (ds ++ fs.map (Frame.duration tps)) := by
  intro fs
  induction fs with
  | nil => intro st ds h; simpa [runFrames] using h
  | cons f fs ih =>
    intro st ds h
    have := ih _ _ (End_Begin_holds tps st ds f h)
    simpa [runFrames] using this

theorem idle_holds : FrameState.idle.Holds [] := by
  refine ⟨rfl, rfl, ?_, fun h => absurd rfl h⟩
  intro j x hj
  simp at hj

theorem slots_eq_recent (st : FrameState) (ds : List ℚ) (h : st.Holds ds) :
    {x | ∃ i, i < min ds.length WINDOW ∧ st.window i = x}
      = {x | x ∈ ds.drop (ds.length - WINDOW)} := by
  obtain ⟨_, _, h3, _⟩ := h
  ext x
  simp only [Set.mem_setOf_eq, List.mem_drop_iff_getElem]
  unfold WINDOW at *
  constructor
  · rintro ⟨i, hi, rfl⟩
    by_cases hk : ds.length ≤ 60
    · have hil : i < ds.length := by omega
      refine ⟨i, by omega, ?_⟩
      have hget : ds.get? i = some ds[i] := by
        rw [List.get?_eq_getElem?, List.getElem?_eq_getElem hil]
      have := h3 i _ hget (by omega)
      have hmod : i % 60 = i := by omega
      rw [hmod] at this
      simp only [show ds.length - 60 = 0 by omega, Nat.zero_add]
      exact this.symm
    · have hj : ∃ j, j < 60 ∧ (ds.length - 60 + j) % 60 = i := by
        refine ⟨(i + 60 - (ds.length - 60) % 60) % 60, by omega, by omega⟩
      obtain ⟨j, hj60, hmod⟩ := hj
      have hlt : ds.length - 60 + j < ds.length := by omega
      refine ⟨j, by omega, ?_⟩
      have hget : ds.get? (ds.length - 60 + j) = some ds[ds.length - 60 + j] := by
        rw [List.get?_eq_getElem?, List.getElem?_eq_getElem hlt]
      have := h3 _ _ hget (by omega)
      rw [hmod] at this
      exact this.symm
  · rintro ⟨j, hj, rfl⟩
    have hlt : ds.length - 60 + j < ds.length := by omega
    have hget : ds.get? (ds.length - 60 + j) = some ds[ds.length - 60 + j] := by
      rw [List.get?_eq_getElem?, List.getElem?_eq_getElem hlt]
    refine ⟨(ds.length - 60 + j) % 60, by omega, h3 _ _ hget (by omega)⟩

/-- C16, on the frame controller modelled from the specification: after
`k ≥ 1` completed frames, `GetMaxFrameTime` is the greatest of the frame times
of the last `min k 60` frames; the list of these has `min k 60` entries, so a
frame older than the 60 most recent does not contribute. -/
theorem rolling_maximum (ticksPerSecond : Nat) (fs : List Frame) (hk : fs ≠ []) :
    IsGreatest {x | x ∈ (fs.map (Frame.duration ticksPerSecond)).drop (fs.length - 60)}
      (GetMaxFrameTime (runFrames ticksPerSecond FrameState.idle fs)) ∧
    ((fs.map (Frame.duration ticksPerSecond)).drop (fs.length - 60)).length
      = min fs.length 60 := by
  have h := runFrames_holds ticksPerSecond fs FrameState.idle [] idle_holds
  simp only [List.nil_append] at h
  have hne : fs.map (Frame.duration ticksPerSecond) ≠ [] := by simpa using hk
  have hset := slots_eq_recent _ _ h
  have hmax := h.2.2.2 hne
  have hpos : 0 < fs.length := List.length_pos.2 hk
  simp only [List.length_map, WINDOW] at hset hmax
  refine ⟨?_, by simp; omega⟩
  rw [← hset]
  unfold GetMaxFrameTime
  rw [hmax]
  obtain ⟨n, hn⟩ : ∃ n, min fs.length 60 = n + 1 := ⟨min fs.length 60 - 1, by omega⟩
  rw [hn]
  exact rescan_isGreatest _ n

/-- Two frames of 16 and 33 milliseconds at one tick per microsecond. -/
theorem rolling_maximum_witness :
    IsGreatest {x | x ∈ (twoFrames.map (Frame.duration 1000000)).drop (twoFrames.length - 60)}
      (GetMaxFrameTime (runFrames 1000000 FrameState.idle twoFrames)) ∧
    ((twoFrames.map (Frame.duration 1000000)).drop (twoFrames.length - 60)).length
      = min twoFrames.length 60 :=
  rolling_maximum 1000000 twoFrames (List.cons_ne_nil _ _)

end dmProfile

namespace dmScript

/-! ## Running computations on a Lua state -/

theorem bind_apply {α β : Type} (m : Lua α) (f : α → Lua β) (L : lua_State) :
    (m >>= f) L = Lua.bind m f L := rfl

theorem pure_apply {α : Type} (a : α) (L : lua_State) :
    (pure a : Lua α) L = LuaResult.ok a L := rfl

theorem bind_of_ok {α β : Type} (m : Lua α) (f : α → Lua β) (L L1 : lua_State) (a : α)
    (h : m L = LuaResult.ok a L1) : (m >>= f) L = f a L1 := by
  simp [bind_apply, Lua.bind, h]

theorem bind_of_error {α β : Type} (m : Lua α) (f : α → Lua β) (L L1 : lua_State)
    (msg : String) (h : m L = LuaResult.error msg L1) :
    (m >>= f) L = LuaResult.error msg L1 := by
  simp [bind_apply, Lua.bind, h]

/-! ## Lists that end in known values -/

theorem getLast?_append_one (s : List LuaValue) (a : LuaValue) :
    (s ++ [a]).getLast? = some a := by simp

theorem getLast?_append_two (s : List LuaValue) (a b : LuaValue) :
    (s ++ [a, b]).getLast? = some b := by simp [List.getLast?_append]

theorem getLast?_append_three (s : List LuaValue) (a b c : LuaValue) :
    (s ++ [a, b, c]).getLast? = some c := by simp [List.getLast?_append]

theorem dropLast_append_one (s : List LuaValue) (a : LuaValue) :
    (s ++ [a]).dropLast = s := by simp

theorem dropLast_append_two (s : List LuaValue) (a b : LuaValue) :
    (s ++ [a, b]).dropLast = s ++ [a] := by
  rw [show s ++ [a, b] = (s ++ [a]) ++ [b] by simp]
  exact List.dropLast_concat

theorem dropLast_append_three (s : List LuaValue) (a b c : LuaValue) :
    (s ++ [a, b, c]).dropLast = s ++ [a, b] := by
  rw [show s ++ [a, b, c] = (s ++ [a, b]) ++ [c] by simp]
  exact List.dropLast_concat

theorem get?_append_at (s l : List LuaValue) (k : Nat) :
    (s ++ l).get? (s.length + k) = l.get? k := by
  simp [List.getElem?_append_right]

theorem get?_append_length (s l : List LuaValue) : (s ++ l).get? s.length = l.get? 0 := by
  simpa using get?_append_at s l 0

theorem eraseIdx_append_length (s : List LuaValue) (a : LuaValue) (l : List LuaValue) :
    (s ++ a :: l).eraseIdx s.length = s ++ l := by
  induction s with
  | nil => rfl
  | cons x s ih => simpa using ih

theorem take_append_add (s l : List LuaValue) (k : Nat) :
    (s ++ l).take (s.length + k) = s ++ l.take k := by
  induction s with
  | nil => simp
  | cons x s ih =>
    simp only [List.cons_append, List.length_cons]
    rw [show s.length + 1 + k = (s.length + k) + 1 by omega, List.take_succ_cons, ih]

theorem take_append_length (s l : List LuaValue) : (s ++ l).take s.length = s := by
  have h := take_append_add s l 0
  simp only [Nat.add_zero, List.take_zero, List.append_nil] at h
  exact h

/-! ## Indices into the stack -/

theorem index2adr_registry (L : lua_State) :
    index2adr L LUA_REGISTRYINDEX = some (LuaValue.table TableRef.registry) := by
  simp [index2adr]

theorem index2adr_globals (L : lua_State) :
    index2adr L LUA_GLOBALSINDEX = some (LuaValue.table TableRef.globals) := by
  simp [index2adr, LUA_GLOBALSINDEX, LUA_REGISTRYINDEX]

theorem stackPos_neg (L : lua_State) (s l : List LuaValue) (k : Nat) (h : L.stack = s ++ l)
    (hk : 0 < k) (hl : k ≤ l.length) (hs : k < 10000) :
    stackPos L (-(k : Int)) = some (s.length + (l.length - k)) := by
  unfold stackPos
  have h1 : ¬ (0 < -(k : Int)) := by omega
  have h2 : -(k : Int) < 0 := by omega
  have h3 : (- -(k : Int)).toNat = k := by omega
  have h4 : k ≤ L.stack.length := by rw [h, List.length_append]; omega
  rw [if_neg h1, h3, if_pos ⟨h2, h4⟩, h, List.length_append]
  congr 1
  omega

theorem index2adr_neg (L : lua_State) (s l : List LuaValue) (k : Nat) (h : L.stack = s ++ l)
    (hk : 0 < k) (hl : k ≤ l.length) (hs : k < 10000) :
    index2adr L (-(k : Int)) = l.get? (l.length - k) := by
  unfold index2adr
  have h1 : ¬ (-(k : Int) = LUA_REGISTRYINDEX) := by unfold LUA_REGISTRYINDEX; omega
  have h2 : ¬ (-(k : Int) = LUA_GLOBALSINDEX) := by unfold LUA_GLOBALSINDEX; omega
  rw [if_neg h1, if_neg h2, stackPos_neg L s l k h hk hl hs]
  simp only [h]
  exact get?_append_at s l _

theorem index2adr_m1 (s xs : List LuaValue) (T : TableRef → LuaValue → LuaValue)
    (U : Nat → Userdata) (f : Nat) (p : List Posted) (h : 1 ≤ xs.length) :
    index2adr ⟨s ++ xs, T, U, f, p⟩ (-1) = xs.get? (xs.length - 1) :=
  index2adr_neg _ s xs 1 rfl (by decide) h (by decide)

theorem index2adr_m2 (s xs : List LuaValue) (T : TableRef → LuaValue → LuaValue)
    (U : Nat → Userdata) (f : Nat) (p : List Posted) (h : 2 ≤ xs.length) :
    index2adr ⟨s ++ xs, T, U, f, p⟩ (-2) = xs.get? (xs.length - 2) :=
  index2adr_neg _ s xs 2 rfl (by decide) h (by decide)

theorem index2adr_m3 (s xs : List LuaValue) (T : TableRef → LuaValue → LuaValue)
    (U : Nat → Userdata) (f : Nat) (p : List Posted) (h : 3 ≤ xs.length) :
    index2adr ⟨s ++ xs, T, U, f, p⟩ (-3) = xs.get? (xs.length - 3) :=
  index2adr_neg _ s xs 3 rfl (by decide) h (by decide)

theorem index2adr_m4 (s xs : List LuaValue) (T : TableRef → LuaValue → LuaValue)
    (U : Nat → Userdata) (f : Nat) (p : List Posted) (h : 4 ≤ xs.length) :
    index2adr ⟨s ++ xs, T, U, f, p⟩ (-4) = xs.get? (xs.length - 4) :=
  index2adr_neg _ s xs 4 rfl (by decide) h (by decide)

theorem stackPos_m2 (s xs : List LuaValue) (T : TableRef → LuaValue → LuaValue)
    (U : Nat → Userdata) (f : Nat) (p : List Posted) (h : 2 ≤ xs.length) :
    stackPos ⟨s ++ xs, T, U, f, p⟩ (-2) = some (s.length + (xs.length - 2)) :=
  stackPos_neg _ s xs 2 rfl (by decide) h (by decide)

theorem eraseIdx_append_add (s l : List LuaValue) (k : Nat) :
    (s ++ l).eraseIdx (s.length + k) = s ++ l.eraseIdx k := by
  induction s with
  | nil => simp
  | cons x s ih =>
    simp only [List.cons_append, List.length_cons]
    rw [show s.length + 1 + k = (s.length + k) + 1 by omega, List.eraseIdx_cons_succ, ih]

/-! ## `PushURL`, `IsURL`, `CheckURL` -/

theorem PushURL_spec (L : lua_State) (u : URL) (t : TableRef)
    (h : L.tables TableRef.registry (LuaValue.string "url") = LuaValue.table t) :
    PushURL u L = LuaResult.ok ()
      { L with
        stack := L.stack ++ [LuaValue.userdata L.fresh]
        udata := fun r => if r = L.fresh then { url := u, metatable := some t } else L.udata r
        fresh := L.fresh + 1 } := by
  simp only [PushURL, bind_apply, Lua.bind, lua_newuserdata, writeURL, luaL_getmetatable,
    lua_getfield, index2adr_registry, SCRIPT_TYPE_NAME_URL, h, lua_setmetatable,
    List.append_assoc, List.singleton_append, getLast?_append_two,
    dropLast_append_two]
  rw [index2adr_m2 _ _ _ _ _ _ (by simp)]
  simp only [List.length_cons, List.length_nil, List.get?]
  congr 2
  funext q
  by_cases hq : q = L.fresh <;> simp [hq]

end dmScript

namespace dmScript

/-! ## `URL_new` -/

/-- C12, as the code has it: a call of `msg.url` with 2 or with more than 3
arguments whose first argument is not nil raises the error that only the two
supported forms exist, and leaves the state as it was: no URL is pushed. -/
theorem url_new_unsupported (env : Env) (L : lua_State)
    (htop : lua_gettop L = 2 ∨ 3 < lua_gettop L) (hnil : lua_isnil L 1 = false) :
    URL_new env L = LuaResult.error URL_new.unsupported L := by
  have h1 : ¬ (lua_gettop L = 1 ∧ lua_isnil L 1 = false) := by
    rintro ⟨h, _⟩
    omega
  have h3 : ¬ (lua_gettop L = 3) := by omega
  have h0 : 0 < lua_gettop L ∧ lua_isnil L 1 = false := ⟨by omega, hnil⟩
  simp only [URL_new, bind_apply, Lua.bind, getL, if_neg h1, if_neg h3, if_pos h0, luaL_error]

/-- The call `msg.url(true, 5)`. -/
theorem url_new_unsupported_witness :
    URL_new sampleEnv (withArgs lua_open [LuaValue.boolean true, LuaValue.number ⟨5⟩])
      = LuaResult.error URL_new.unsupported
          (withArgs lua_open [LuaValue.boolean true, LuaValue.number ⟨5⟩]) :=
  url_new_unsupported sampleEnv
    (withArgs lua_open [LuaValue.boolean true, LuaValue.number ⟨5⟩])
    (Or.inl (by decide)) (by decide)

theorem url_new_nil_first (env : Env) (L : lua_State) (t : TableRef)
    (hreg : L.tables TableRef.registry (LuaValue.string "url") = LuaValue.table t)
    (h3 : lua_gettop L ≠ 3) (hnil : lua_isnil L 1 = true) :
    URL_new env L = LuaResult.ok 1
      { L with
        stack := L.stack ++ [LuaValue.userdata L.fresh]
        udata := fun r =>
          if r = L.fresh then { url := env.URL0, metatable := some t } else L.udata r
        fresh := L.fresh + 1 } := by
  have h1 : ¬ (lua_gettop L = 1 ∧ lua_isnil L 1 = false) := by
    rintro ⟨_, h⟩
    rw [hnil] at h
    exact Bool.noConfusion h
  have h0 : ¬ (0 < lua_gettop L ∧ lua_isnil L 1 = false) := by
    rintro ⟨_, h⟩
    rw [hnil] at h
    exact Bool.noConfusion h
  simp only [URL_new, bind_apply, Lua.bind, getL, if_neg h1, if_neg h3, if_neg h0, pure_apply,
    PushURL_spec L env.URL0 t hreg]

/-- C12 fails as stated: the call `msg.url(nil, 5)` has two arguments, raises
no error, returns 1 and pushes a URL. -/
theorem url_new_two_arguments_accepted :
    lua_gettop (withArgs sampleState [LuaValue.nil, LuaValue.number ⟨5⟩]) = 2 ∧
    (URL_new sampleEnv (withArgs sampleState [LuaValue.nil, LuaValue.number ⟨5⟩])).raised
      = none ∧
    (URL_new sampleEnv (withArgs sampleState [LuaValue.nil, LuaValue.number ⟨5⟩])).value
      = some 1 ∧
    (URL_new sampleEnv (withArgs sampleState [LuaValue.nil, LuaValue.number ⟨5⟩])).state.stack
      = [LuaValue.nil, LuaValue.number ⟨5⟩, LuaValue.userdata 1] := by
  have h := url_new_nil_first sampleEnv
    (withArgs sampleState [LuaValue.nil, LuaValue.number ⟨5⟩]) (TableRef.heap 0)
    (by decide) (by decide) (by decide)
  rw [h]
  exact ⟨by decide, rfl, rfl, rfl⟩

end dmScript

namespace dmScript

/-! ## `URL_newindex` -/

theorem CheckURL_of_url (L : lua_State) (index : Int) (r : Nat) (t : TableRef)
    (h1 : index2adr L index = some (LuaValue.userdata r))
    (hmt : (L.udata r).metatable = some t)
    (hreg : L.tables TableRef.registry (LuaValue.string "url") = LuaValue.table t) :
    CheckURL index L = LuaResult.ok r L := by
  simp [CheckURL, bind_apply, Lua.bind, getL, lua_type, h1, LuaValue.tag, luaL_checkudata,
    hmt, hreg, SCRIPT_TYPE_NAME_URL]

theorem luaL_checkstring_of_string (env : Env) (L : lua_State) (narg : Int) (s : String)
    (h : index2adr L narg = some (LuaValue.string s)) :
    luaL_checkstring env narg L = LuaResult.ok s L := by
  simp [luaL_checkstring, bind_apply, Lua.bind, lua_tostring, h, pure_apply]

/-- C13, as the code has it: for a URL at index 1, the key `path` or
`fragment` at index 2 and at index 3 a value that is not a string, not a
number, not nil and not a hash, `URL_newindex` raises the error
`Invalid type for ..., must be hash, string or nil.` and leaves the state,
the URL with it, as it was. -/
theorem url_newindex_invalid_type (env : Env) (L : lua_State) (r : Nat) (t : TableRef)
    (key : String)
    (h1 : index2adr L 1 = some (LuaValue.userdata r))
    (hmt : (L.udata r).metatable = some t)
    (hreg : L.tables TableRef.registry (LuaValue.string "url") = LuaValue.table t)
    (h2 : index2adr L 2 = some (LuaValue.string key))
    (hkey : key = "path" ∨ key = "fragment")
    (hstring : lua_isstring L 3 = false) (hnil : lua_isnil L 3 = false)
    (hhash : env.IsHash L 3 = false) :
    URL_newindex env L
      = LuaResult.error ("Invalid type for " ++ key ++ ", must be hash, string or nil.") L := by
  rcases hkey with hk | hk
  · subst hk
    simp [URL_newindex, bind_apply, Lua.bind, CheckURL_of_url L 1 r t h1 hmt hreg,
      luaL_checkstring_of_string env L 2 "path" h2, URL_newindex.path, getL, hstring, hnil,
      hhash, luaL_error]
  · subst hk
    simp [URL_newindex, bind_apply, Lua.bind, CheckURL_of_url L 1 r t h1 hmt hreg,
      luaL_checkstring_of_string env L 2 "fragment" h2, URL_newindex.fragment, getL, hstring,
      hnil, hhash, luaL_error]

/-- The assignment `url.path = true` on the URL in block 0. -/
theorem url_newindex_invalid_type_witness :
    URL_newindex sampleEnv
        (withArgs sampleState
          [LuaValue.userdata 0, LuaValue.string "path", LuaValue.boolean true])
      = LuaResult.error ("Invalid type for " ++ "path" ++ ", must be hash, string or nil.")
          (withArgs sampleState
            [LuaValue.userdata 0, LuaValue.string "path", LuaValue.boolean true]) :=
  url_newindex_invalid_type sampleEnv
    (withArgs sampleState [LuaValue.userdata 0, LuaValue.string "path", LuaValue.boolean true])
    0 (TableRef.heap 0) "path" (by decide) (by decide) (by decide) (by decide)
    (Or.inl rfl) (by decide) (by decide) rfl

theorem url_newindex_path_number (env : Env) (L : lua_State) (r : Nat) (t : TableRef)
    (n : LuaNumber)
    (h1 : index2adr L 1 = some (LuaValue.userdata r))
    (hmt : (L.udata r).metatable = some t)
    (hreg : L.tables TableRef.registry (LuaValue.string "url") = LuaValue.table t)
    (h2 : index2adr L 2 = some (LuaValue.string "path"))
    (h3 : index2adr L 3 = some (LuaValue.number n)) :
    (URL_newindex env L).value = some 0 ∧
    (URL_newindex env L).raised = none ∧
    (readURL (URL_newindex env L).state r).m_Path
      = env.dmHashString64 (env.lua_number2str n) := by
  have hs : lua_isstring L 3 = true := by
    simp [lua_isstring, lua_type, h3, LuaValue.tag, LUA_TSTRING, LUA_TNUMBER]
  have hrun : URL_newindex env L
      = (URL_newindex.path env r >>= fun _ => (pure 0 : Lua Int)) L := by
    simp [URL_newindex, bind_apply, Lua.bind, CheckURL_of_url L 1 r t h1 hmt hreg,
      luaL_checkstring_of_string env L 2 "path" h2]
  rw [hrun]
  simp only [URL_newindex.path, bind_apply, Lua.bind, getL, hs, if_true, lua_tostring, h3,
    pure_apply]
  cases stackPos L 3 <;>
    simp [modifyURL, LuaResult.value, LuaResult.raised, LuaResult.state, readURL]

/-- C13 fails as stated: the assignment `url.path = 5`, a number, raises no
error, returns, and the path of the URL goes from 0 to the hash of the
number written as a string. -/
theorem url_newindex_number_accepted :
    lua_type (withArgs sampleState
        [LuaValue.userdata 0, LuaValue.string "path", LuaValue.number ⟨5⟩]) 3 = LUA_TNUMBER ∧
    (URL_newindex sampleEnv (withArgs sampleState
        [LuaValue.userdata 0, LuaValue.string "path", LuaValue.number ⟨5⟩])).raised = none ∧
    (readURL sampleState 0).m_Path = 0 ∧
    (readURL (URL_newindex sampleEnv (withArgs sampleState
        [LuaValue.userdata 0, LuaValue.string "path", LuaValue.number ⟨5⟩])).state 0).m_Path
      ≠ 0 := by
  have h := url_newindex_path_number sampleEnv
    (withArgs sampleState [LuaValue.userdata 0, LuaValue.string "path", LuaValue.number ⟨5⟩])
    0 (TableRef.heap 0) ⟨5⟩ (by decide) (by decide) (by decide) (by decide) (by decide)
  refine ⟨by decide, h.2.1, rfl, ?_⟩
  rw [h.2.2]
  exact Nat.succ_ne_zero _

end dmScript

namespace dmScript

/-! ## The stack height across `URL_new` -/

theorem bind_keeps_height {α β : Type} (m : Lua α) (f : α → Lua β)
    (hm : ∀ L, (m L).state.stack.length = L.stack.length)
    (hf : ∀ a L, (f a L).state.stack.length = L.stack.length) :
    ∀ L, ((m >>= f) L).state.stack.length = L.stack.length := by
  intro L
  rw [bind_apply]
  unfold Lua.bind
  have h := hm L
  cases hmL : m L with
  | ok a L1 =>
    rw [hmL] at h
    simp only [LuaResult.state] at h
    simp only [hf a L1, h]
  | error msg L1 =>
    rw [hmL] at h
    exact h
  | abort L1 =>
    rw [hmL] at h
    exact h

theorem getL_keeps_height (L : lua_State) : (getL L).state.stack.length = L.stack.length :=
  rfl

theorem lua_tostring_keeps_height (env : Env) (idx : Int) (L : lua_State) :
    (lua_tostring env idx L).state.stack.length = L.stack.length := by
  unfold lua_tostring
  split
  · rfl
  · split <;> simp [LuaResult.state]
  · rfl

theorem luaL_checkstring_keeps_height (env : Env) (narg : Int) (L : lua_State) :
    (luaL_checkstring env narg L).state.stack.length = L.stack.length := by
  unfold luaL_checkstring
  refine bind_keeps_height _ _ (lua_tostring_keeps_height env narg) ?_ L
  intro a L1
  cases a <;> rfl

theorem liftExcept_keeps_height {α : Type} (f : lua_State → Except String α) (L : lua_State) :
    (liftExcept f L).state.stack.length = L.stack.length := by
  unfold liftExcept
  split <;> rfl

theorem parse_keeps_height (env : Env) (url : URL) (L : lua_State) :
    (URL_new.parse env url L).state.stack.length = L.stack.length := by
  unfold URL_new.parse
  refine bind_keeps_height _ _ (luaL_checkstring_keeps_height env 1) ?_ L
  intro s L1
  generalize env.ParseURL s url = p
  obtain ⟨r, u⟩ := p
  cases r <;> rfl

theorem socket_keeps_height (env : Env) (url : URL) (L : lua_State) :
    (URL_new.socket env url L).state.stack.length = L.stack.length := by
  unfold URL_new.socket
  refine bind_keeps_height _ _ getL_keeps_height ?_ L
  intro L0 L1
  split
  · split
    · rfl
    · refine bind_keeps_height _ _ (lua_tostring_keeps_height env 1) ?_ L1
      intro s L2
      generalize env.GetSocket s url.m_Socket = p
      obtain ⟨r, u⟩ := p
      cases r <;> rfl
  · rfl

theorem hashOf_keeps_height (env : Env) (index : Int) (L : lua_State) :
    (URL_new.hashOf env index L).state.stack.length = L.stack.length := by
  unfold URL_new.hashOf
  refine bind_keeps_height _ _ getL_keeps_height ?_ L
  intro L0 L1
  split
  · split
    · refine bind_keeps_height _ _ (lua_tostring_keeps_height env index) ?_ L1
      intro a L2
      rfl
    · refine bind_keeps_height _ _ (liftExcept_keeps_height _) ?_ L1
      intro a L2
      rfl
  · rfl

theorem PushURL_height (u : URL) (L L1 : lua_State) (h : PushURL u L = LuaResult.ok () L1) :
    L1.stack.length = L.stack.length + 1 := by
  simp only [PushURL, bind_apply, Lua.bind, lua_newuserdata, writeURL, luaL_getmetatable,
    lua_getfield, index2adr_registry, lua_setmetatable, List.append_assoc,
    List.singleton_append, getLast?_append_two, dropLast_append_two] at h
  split at h
  · injection h with _ h
    rw [← h]
    simp
  · injection h with _ h
    rw [← h]
    simp
  · exact LuaResult.noConfusion h

/-- The part of `URL_new` before `PushURL`: the URL that will be pushed. -/
theorem URL_new_eq (env : Env) (L : lua_State) :
    ∃ m : Lua URL, (∀ L0, (m L0).state.stack.length = L0.stack.length) ∧
      URL_new env L = (m >>= fun url => PushURL url >>= fun _ => (pure 1 : Lua Int)) L := by
  by_cases h1 : lua_gettop L = 1 ∧ lua_isnil L 1 = false
  · refine ⟨URL_new.parse env env.URL0, parse_keeps_height env env.URL0, ?_⟩
    simp only [URL_new, bind_apply, Lua.bind, getL, if_pos h1]
  · by_cases h3 : lua_gettop L = 3
    · refine ⟨URL_new.socket env env.URL0 >>= fun url =>
          URL_new.hashOf env 2 >>= fun path =>
          URL_new.hashOf env 3 >>= fun fragment =>
          pure { m_Socket := url.m_Socket, m_Path := path.getD url.m_Path,
                 m_Fragment := fragment.getD url.m_Fragment }, ?_, ?_⟩
      · refine bind_keeps_height _ _ (socket_keeps_height env env.URL0) ?_
        intro url
        refine bind_keeps_height _ _ (hashOf_keeps_height env 2) ?_
        intro path
        refine bind_keeps_height _ _ (hashOf_keeps_height env 3) ?_
        intro fragment L0
        rfl
      · simp only [URL_new, bind_apply, Lua.bind, getL, if_neg h1, if_pos h3]
        cases URL_new.socket env env.URL0 L with
        | error msg L1 => rfl
        | abort L1 => rfl
        | ok url L1 =>
          simp only []
          cases URL_new.hashOf env 2 L1 with
          | error msg L2 => rfl
          | abort L2 => rfl
          | ok path L2 =>
            simp only []
            cases URL_new.hashOf env 3 L2 with
            | error msg L3 => rfl
            | abort L3 => rfl
            | ok fragment L3 => rfl
    · by_cases h0 : 0 < lua_gettop L ∧ lua_isnil L 1 = false
      · refine ⟨luaL_error URL_new.unsupported, fun L0 => ?_, ?_⟩
        · rfl
        simp only [URL_new, bind_apply, Lua.bind, getL, if_neg h1, if_neg h3, if_pos h0]
      · refine ⟨pure env.URL0, fun L0 => ?_, ?_⟩
        · rfl
        simp only [URL_new, bind_apply, Lua.bind, getL, if_neg h1, if_neg h3, if_neg h0]

theorem url_new_no_arguments (env : Env) (L : lua_State) (t : TableRef)
    (hreg : L.tables TableRef.registry (LuaValue.string "url") = LuaValue.table t)
    (htop : lua_gettop L = 0) : (URL_new env L).value = some 1 := by
  have h1 : ¬ (lua_gettop L = 1 ∧ lua_isnil L 1 = false) := by
    rintro ⟨h, _⟩
    omega
  have h3 : ¬ (lua_gettop L = 3) := by omega
  have h0 : ¬ (0 < lua_gettop L ∧ lua_isnil L 1 = false) := by
    rintro ⟨h, _⟩
    omega
  simp only [URL_new, bind_apply, Lua.bind, getL, if_neg h1, if_neg h3, if_neg h0, pure_apply,
    PushURL_spec L env.URL0 t hreg, LuaResult.value]

theorem url_new_parsable (env : Env) (L : lua_State) (t : TableRef) (s : String) (u : URL)
    (hreg : L.tables TableRef.registry (LuaValue.string "url") = LuaValue.table t)
    (htop : lua_gettop L = 1) (harg : index2adr L 1 = some (LuaValue.string s))
    (hparse : env.ParseURL s env.URL0 = (MsgResult.RESULT_OK, u)) :
    (URL_new env L).value = some 1 := by
  have hnil : lua_isnil L 1 = false := by
    simp [lua_isnil, lua_type, harg, LuaValue.tag, LUA_TSTRING, LUA_TNIL]
  have h1 : lua_gettop L = 1 ∧ lua_isnil L 1 = false := ⟨htop, hnil⟩
  simp only [URL_new, bind_apply, Lua.bind, getL, if_pos h1, URL_new.parse,
    luaL_checkstring_of_string env L 1 s harg, hparse, pure_apply,
    PushURL_spec L u t hreg, LuaResult.value]

theorem url_new_three_nils (env : Env) (L : lua_State) (t : TableRef)
    (hreg : L.tables TableRef.registry (LuaValue.string "url") = LuaValue.table t)
    (htop : lua_gettop L = 3) (hn1 : lua_isnil L 1 = true) (hn2 : lua_isnil L 2 = true)
    (hn3 : lua_isnil L 3 = true) : (URL_new env L).value = some 1 := by
  simp [URL_new, bind_apply, Lua.bind, getL, htop, URL_new.socket, URL_new.hashOf, hn1, hn2,
    hn3, pure_apply, PushURL_spec L env.URL0 t hreg, LuaResult.value]

/-- C15: whenever `URL_new` returns, it returns 1 and the stack is one higher
than on entry, which is what its assertion `top + 1 == lua_gettop(L)` states;
and with the URL metatable registered it does return for no argument, for a
single nil, for a string that `ParseURL` accepts and for three nils. -/
theorem url_new_assertion (env : Env) (L : lua_State) :
    (∀ n L1, URL_new env L = LuaResult.ok n L1 →
      n = 1 ∧ lua_gettop L + 1 = lua_gettop L1) ∧
    (∀ t, L.tables TableRef.registry (LuaValue.string "url") = LuaValue.table t →
      (lua_gettop L = 0 → (URL_new env L).value = some 1) ∧
      (lua_gettop L = 1 → lua_isnil L 1 = true → (URL_new env L).value = some 1) ∧
      (∀ s u, lua_gettop L = 1 → index2adr L 1 = some (LuaValue.string s) →
        env.ParseURL s env.URL0 = (MsgResult.RESULT_OK, u) →
        (URL_new env L).value = some 1) ∧
      (lua_gettop L = 3 → lua_isnil L 1 = true → lua_isnil L 2 = true →
        lua_isnil L 3 = true → (URL_new env L).value = some 1)) := by
  refine ⟨?_, ?_⟩
  · intro n L1 h
    obtain ⟨m, hm, heq⟩ := URL_new_eq env L
    rw [heq, bind_apply] at h
    unfold Lua.bind at h
    have hlen := hm L
    cases hmL : m L with
    | error msg L2 =>
      rw [hmL] at h
      exact LuaResult.noConfusion h
    | abort L2 =>
      rw [hmL] at h
      exact LuaResult.noConfusion h
    | ok url L2 =>
      rw [hmL] at h hlen
      simp only [bind_apply] at h
      unfold Lua.bind at h
      cases hp : PushURL url L2 with
      | error msg L3 =>
        rw [hp] at h
        exact LuaResult.noConfusion h
      | abort L3 =>
        rw [hp] at h
        exact LuaResult.noConfusion h
      | ok x L3 =>
        rw [hp] at h
        simp only [pure_apply] at h
        injection h with hn hL
        have h3 := PushURL_height url L2 L3 hp
        simp only [LuaResult.state] at hlen
        subst hL
        refine ⟨hn.symm, ?_⟩
        unfold lua_gettop
        rw [h3, hlen]
        push_cast
        rfl
  · intro t hreg
    refine ⟨url_new_no_arguments env L t hreg, ?_, ?_, url_new_three_nils env L t hreg⟩
    · intro htop hnil
      rw [url_new_nil_first env L t hreg (by omega) hnil]
      rfl
    · intro s u htop harg hparse
      exact url_new_parsable env L t s u hreg htop harg hparse

end dmScript

namespace dmScript

/-! ## `Msg_Post`: the size check -/

theorem bind_keeps_posted {α β : Type} (m : Lua α) (f : α → Lua β)
    (hm : ∀ L, (m L).state.posted = L.posted)
    (hf : ∀ a L, (f a L).state.posted = L.posted) :
    ∀ L, ((m >>= f) L).state.posted = L.posted := by
  intro L
  rw [bind_apply]
  unfold Lua.bind
  have h := hm L
  cases hmL : m L with
  | ok a L1 =>
    rw [hmL] at h
    simp only [LuaResult.state] at h
    simp only [hf a L1, h]
  | error msg L1 =>
    rw [hmL] at h
    exact h
  | abort L1 =>
    rw [hmL] at h
    exact h

theorem getL_keeps_posted (L : lua_State) : (getL L).state.posted = L.posted := rfl

theorem lua_tostring_keeps_posted (env : Env) (idx : Int) (L : lua_State) :
    (lua_tostring env idx L).state.posted = L.posted := by
  unfold lua_tostring
  split
  · rfl
  · split <;> rfl
  · rfl

theorem liftExcept_keeps_posted {α : Type} (f : lua_State → Except String α)
    (L : lua_State) : (liftExcept f L).state.posted = L.posted := by
  unfold liftExcept
  split <;> rfl

theorem CheckURL_keeps_posted (index : Int) (L : lua_State) :
    (CheckURL index L).state.posted = L.posted := by
  unfold CheckURL
  refine bind_keeps_posted _ _ getL_keeps_posted ?_ L
  intro L0 L1
  split
  · unfold luaL_checkudata
    split
    · split
      · split <;> rfl
      · rfl
    · rfl
  · rfl

theorem lua_getfield_keeps_posted (idx : Int) (k : String) (L : lua_State) :
    (lua_getfield idx k L).state.posted = L.posted := by
  unfold lua_getfield
  split <;> rfl

theorem receiver_keeps_posted (env : Env) (L : lua_State) :
    (Msg_Post.receiver env L).state.posted = L.posted := by
  unfold Msg_Post.receiver
  refine bind_keeps_posted _ _ getL_keeps_posted ?_ L
  intro L0 L1
  split
  · refine bind_keeps_posted _ _ (lua_tostring_keeps_posted env 2) ?_ L1
    intro url L2
    generalize env.ParseURL (url.getD "") env.URL0 = p
    obtain ⟨r, u⟩ := p
    cases r <;> rfl
  · refine bind_keeps_posted _ _ (CheckURL_keeps_posted 2) ?_ L1
    intro p
    refine bind_keeps_posted _ _ getL_keeps_posted ?_
    intro L2 L3
    rfl

theorem urls_keeps_posted (env : Env) (receiver : URL) (L : lua_State) :
    (Msg_Post.urls env receiver L).state.posted = L.posted := by
  unfold Msg_Post.urls
  refine bind_keeps_posted _ _ (lua_getfield_keeps_posted _ _) ?_ L
  intro _
  refine bind_keeps_posted _ _ getL_keeps_posted ?_
  intro L1
  refine bind_keeps_posted _ _ (fun L2 => ?_) ?_
  · rfl
  · intro _
    by_cases hnull : lua_touserdata L1 (-1) = Pointer.null
    · simp only [if_pos hnull]
      intro L2
      rfl
    · simp only [if_neg hnull]
      refine bind_keeps_posted _ _ getL_keeps_posted ?_
      intro L2 L3
      by_cases hc : (env.callback (lua_touserdata L1 (-1)) L2 1 env.URL0 receiver).1 = false
      · rw [if_pos hc]
        rfl
      · rw [if_neg hc]
        rfl

theorem message_id_keeps_posted (env : Env) (L : lua_State) :
    (Msg_Post.message_id env L).state.posted = L.posted := by
  unfold Msg_Post.message_id
  refine bind_keeps_posted _ _ getL_keeps_posted ?_ L
  intro L0 L1
  split
  · refine bind_keeps_posted _ _ (lua_tostring_keeps_posted env 3) ?_ L1
    intro s L2
    rfl
  · exact liftExcept_keeps_posted _ L1

theorem header_keeps_posted (env : Env) (L : lua_State) :
    (Msg_Post.header env L).state.posted = L.posted := by
  unfold Msg_Post.header
  refine bind_keeps_posted _ _ (receiver_keeps_posted env) ?_ L
  intro receiver
  refine bind_keeps_posted _ _ (urls_keeps_posted env receiver) ?_
  intro urls
  refine bind_keeps_posted _ _ (message_id_keeps_posted env) ?_
  intro id L1
  rfl

theorem lua_pop_push (L : lua_State) (v : LuaValue) :
    lua_pop 1 { L with stack := L.stack ++ [v] } = LuaResult.ok () L := by
  simp [lua_pop]

theorem CheckURL_keeps_height (index : Int) (L : lua_State) :
    (CheckURL index L).state.stack.length = L.stack.length := by
  unfold CheckURL
  refine bind_keeps_height _ _ getL_keeps_height ?_ L
  intro L0 L1
  split
  · unfold luaL_checkudata
    split
    · split
      · split <;> rfl
      · rfl
    · rfl
  · rfl

theorem receiver_keeps_height (env : Env) (L : lua_State) :
    (Msg_Post.receiver env L).state.stack.length = L.stack.length := by
  unfold Msg_Post.receiver
  refine bind_keeps_height _ _ getL_keeps_height ?_ L
  intro L0 L1
  split
  · refine bind_keeps_height _ _ (lua_tostring_keeps_height env 2) ?_ L1
    intro url L2
    generalize env.ParseURL (url.getD "") env.URL0 = p
    obtain ⟨r, u⟩ := p
    cases r <;> rfl
  · refine bind_keeps_height _ _ (CheckURL_keeps_height 2) ?_ L1
    intro p
    refine bind_keeps_height _ _ getL_keeps_height ?_
    intro L2 L3
    rfl

theorem urls_keeps_height (env : Env) (receiver : URL) (L : lua_State) :
    (Msg_Post.urls env receiver L).state.stack.length = L.stack.length := by
  simp only [Msg_Post.urls, bind_apply, Lua.bind, lua_getglobal, lua_getfield,
    index2adr_globals, getL, lua_pop_push]
  split
  · rfl
  · simp only [bind_apply, Lua.bind, getL]
    split <;> rfl

theorem message_id_keeps_height (env : Env) (L : lua_State) :
    (Msg_Post.message_id env L).state.stack.length = L.stack.length := by
  unfold Msg_Post.message_id
  refine bind_keeps_height _ _ getL_keeps_height ?_ L
  intro L0 L1
  split
  · refine bind_keeps_height _ _ (lua_tostring_keeps_height env 3) ?_ L1
    intro s L2
    rfl
  · exact liftExcept_keeps_height _ L1

theorem header_keeps_height (env : Env) (L : lua_State) :
    (Msg_Post.header env L).state.stack.length = L.stack.length := by
  unfold Msg_Post.header
  refine bind_keeps_height _ _ (receiver_keeps_height env) ?_ L
  intro receiver
  refine bind_keeps_height _ _ (urls_keeps_height env receiver) ?_
  intro urls
  refine bind_keeps_height _ _ (message_id_keeps_height env) ?_
  intro id L1
  rfl

theorem context_eq (env : Env) (L : lua_State) :
    lua_touserdata
        { L with stack := L.stack
          ++ [L.tables TableRef.globals (LuaValue.string env.SCRIPT_CONTEXT)] } (-1)
      = Msg_Post.context env L := by
  unfold lua_touserdata Msg_Post.context
  rw [index2adr_m1 _ _ _ _ _ _ (by simp)]
  simp only [List.length_singleton, Nat.sub_self, List.get?]
  cases L.tables TableRef.globals (LuaValue.string env.SCRIPT_CONTEXT) <;> rfl

theorem data_too_large (env : Env) (L : lua_State) (top : Int) (id : Nat) (d : Descriptor)
    (htop : 3 < top) (hctx : Msg_Post.context env L ≠ Pointer.null)
    (hget : env.Get (Msg_Post.context env L) id = some d)
    (hbig : MAX_MESSAGE_DATA_SIZE < d.m_Size) :
    Msg_Post.data env top id L = LuaResult.error (Msg_Post.tooLarge d.m_Size) L := by
  simp only [Msg_Post.data, if_pos htop, bind_apply, Lua.bind, lua_getglobal, lua_getfield,
    index2adr_globals, getL, context_eq, lua_pop_push, if_neg hctx, hget, if_pos hbig,
    luaL_error]

theorem data_null_context (env : Env) (L : lua_State) (top : Int) (id : Nat)
    (htop : 3 < top) (hctx : Msg_Post.context env L = Pointer.null) :
    Msg_Post.data env top id L = LuaResult.abort L := by
  simp only [Msg_Post.data, if_pos htop, bind_apply, Lua.bind, lua_getglobal, lua_getfield,
    index2adr_globals, getL, context_eq, lua_pop_push, if_pos hctx, abort]

theorem urls_null_callback (env : Env) (L : lua_State) (receiver : URL)
    (hnull : lua_touserdata
        { L with stack := L.stack
          ++ [L.tables TableRef.globals (LuaValue.string env.SCRIPT_GET_URLS_CALLBACK)] } (-1)
      = Pointer.null) :
    Msg_Post.urls env receiver L = LuaResult.abort L := by
  simp only [Msg_Post.urls, bind_apply, Lua.bind, lua_getglobal, lua_getfield,
    index2adr_globals, getL, lua_pop_push, if_pos hnull, abort]

theorem data_of_table (env : Env) (L : lua_State) (top : Int) (id : Nat) (d : Descriptor)
    (v : LuaValue) (data : List Nat) (n : Nat)
    (htop : 3 < top) (hctx : Msg_Post.context env L ≠ Pointer.null)
    (hget : env.Get (Msg_Post.context env L) id = some d)
    (hsmall : d.m_Size ≤ MAX_MESSAGE_DATA_SIZE)
    (h4 : index2adr L 4 = some v) (htable : v.tag = LUA_TTABLE)
    (hddf : env.CheckDDF { L with stack := L.stack ++ [v] } d MAX_MESSAGE_DATA_SIZE 4
      = Except.ok (data, n)) :
    Msg_Post.data env top id L
      = LuaResult.ok { descriptor := some d, data := data, data_size := n } L := by
  have hnot : ¬ (MAX_MESSAGE_DATA_SIZE < d.m_Size) := by omega
  have htype : lua_type L 4 = LUA_TTABLE := by simp [lua_type, h4, htable]
  simp only [Msg_Post.data, if_pos htop, bind_apply, Lua.bind, lua_getglobal, lua_getfield,
    index2adr_globals, getL, context_eq, lua_pop_push, if_neg hctx, hget, if_neg hnot,
    luaL_checktype, htype, if_true, lua_pushvalue, h4, liftExcept, hddf, pure_apply]

/-- C11: in a call of `Msg_Post` with more than 3 arguments that gets as far as
a message id (so the URL callback is not null, or the process would have
ended), with a context that is not null in which the id has a registered
descriptor, nothing has been posted up to there; when the descriptor has
`m_Size > 256` the call raises the error `The message is too large to be sent`
with nothing posted; when `m_Size ≤ 256` and argument 4 is a table that
`CheckDDF` accepts, the message is handed to `dmMessage::Post` with that
descriptor. -/
theorem msg_post_size_check (env : Env) (L L1 : lua_State) (hd : Msg_Post.Header)
    (d : Descriptor) (htop : 3 < lua_gettop L)
    (hhead : Msg_Post.header env L = LuaResult.ok hd L1)
    (hctx : Msg_Post.context env L1 ≠ Pointer.null)
    (hget : env.Get (Msg_Post.context env L1) hd.message_id = some d) :
    L1.posted = L.posted ∧
    (MAX_MESSAGE_DATA_SIZE < d.m_Size →
      Msg_Post env L = LuaResult.error (Msg_Post.tooLarge d.m_Size) L1 ∧
      (Msg_Post env L).state.posted = L.posted) ∧
    (d.m_Size ≤ MAX_MESSAGE_DATA_SIZE →
      ∀ v data n, index2adr L1 4 = some v → v.tag = LUA_TTABLE →
        env.CheckDDF { L1 with stack := L1.stack ++ [v] } d MAX_MESSAGE_DATA_SIZE 4
          = Except.ok (data, n) →
        (Msg_Post env L).state.posted
          = L.posted ++ [{ sender := hd.sender, receiver := hd.receiver,
                           message_id := hd.message_id, descriptor := some d,
                           data := data, data_size := n }]) := by
  have hposted : L1.posted = L.posted := by
    have := header_keeps_posted env L
    rw [hhead] at this
    exact this
  have hheight : ¬ (lua_gettop L ≠ lua_gettop L1) := by
    have := header_keeps_height env L
    rw [hhead] at this
    simp only [LuaResult.state] at this
    simp [lua_gettop, this]
  have hrun : Msg_Post env L = Msg_Post.send env (lua_gettop L) hd L1 := by
    simp only [Msg_Post, bind_apply, Lua.bind, getL, hhead]
  refine ⟨hposted, ?_, ?_⟩
  · intro hbig
    have : Msg_Post env L = LuaResult.error (Msg_Post.tooLarge d.m_Size) L1 := by
      rw [hrun]
      simp only [Msg_Post.send, bind_apply, Lua.bind,
        data_too_large env L1 (lua_gettop L) hd.message_id d htop hctx hget hbig]
    refine ⟨this, ?_⟩
    rw [this]
    exact hposted
  · intro hsmall v data n h4 htable hddf
    rw [hrun]
    simp only [Msg_Post.send, bind_apply, Lua.bind,
      data_of_table env L1 (lua_gettop L) hd.message_id d v data n htop hctx hget hsmall h4
        htable hddf, Msg_Post.post, getL, setL, Msg_Post.message, if_neg hheight]
    split <;> simp [LuaResult.state, luaL_error, pure_apply, hposted]

theorem lua_isstring_of_string (L : lua_State) (idx : Int) (s : String)
    (h : index2adr L idx = some (LuaValue.string s)) : lua_isstring L idx = true := by
  simp [lua_isstring, lua_type, h, LuaValue.tag]

theorem header_of_strings (env : Env) (L : lua_State) (target id : String) (parsed : URL)
    (urls : URL × URL)
    (h2 : index2adr L 2 = some (LuaValue.string target))
    (hparse : env.ParseURL target env.URL0 = (MsgResult.RESULT_OK, parsed))
    (hptr : lua_touserdata { L with stack := L.stack
        ++ [L.tables TableRef.globals (LuaValue.string env.SCRIPT_GET_URLS_CALLBACK)] } (-1)
      ≠ Pointer.null)
    (hcall : env.callback
        (lua_touserdata { L with stack := L.stack
          ++ [L.tables TableRef.globals (LuaValue.string env.SCRIPT_GET_URLS_CALLBACK)] } (-1))
        L 1 env.URL0 parsed = (true, urls))
    (h3 : index2adr L 3 = some (LuaValue.string id)) :
    Msg_Post.header env L
      = LuaResult.ok { sender := urls.1, receiver := urls.2,
                       message_id := env.dmHashString64 id } L := by
  have hr : Msg_Post.receiver env L = LuaResult.ok parsed L := by
    simp [Msg_Post.receiver, bind_apply, Lua.bind, getL, lua_isstring_of_string L 2 target h2,
      lua_tostring, h2, hparse, pure_apply]
  have hu : Msg_Post.urls env parsed L = LuaResult.ok urls L := by
    simp only [Msg_Post.urls, bind_apply, Lua.bind, lua_getglobal, lua_getfield,
      index2adr_globals, getL, lua_pop_push, if_neg hptr, hcall]
    simp [pure_apply]
  have hm : Msg_Post.message_id env L = LuaResult.ok (env.dmHashString64 id) L := by
    simp [Msg_Post.message_id, bind_apply, Lua.bind, getL, lua_isstring_of_string L 3 id h3,
      lua_tostring, h3, pure_apply]
  simp only [Msg_Post.header, bind_apply, Lua.bind, hr, hu, hm, pure_apply]

/-- The call `msg.post(nil, "a:b", "abcd", {})` in a state whose globals hold a
URL callback and a context, both not null: the id of `abcd` is that of the
registered 300-byte type. -/
theorem msg_post_size_check_witness :
    lua_touserdata
        { withArgs postState postArgs with
          stack := (withArgs postState postArgs).stack
            ++ [(withArgs postState postArgs).tables TableRef.globals
                  (LuaValue.string sampleEnv.SCRIPT_GET_URLS_CALLBACK)] } (-1)
      ≠ Pointer.null ∧
    Msg_Post.context sampleEnv (withArgs postState postArgs) ≠ Pointer.null ∧
    (withArgs postState postArgs).posted = (withArgs postState postArgs).posted ∧
    (MAX_MESSAGE_DATA_SIZE < (Descriptor.mk "big" 300).m_Size →
      Msg_Post sampleEnv (withArgs postState postArgs)
        = LuaResult.error (Msg_Post.tooLarge (Descriptor.mk "big" 300).m_Size)
            (withArgs postState postArgs) ∧
      (Msg_Post sampleEnv (withArgs postState postArgs)).state.posted
        = (withArgs postState postArgs).posted) ∧
    ((Descriptor.mk "big" 300).m_Size ≤ MAX_MESSAGE_DATA_SIZE →
      ∀ v data n, index2adr (withArgs postState postArgs) 4 = some v →
        v.tag = LUA_TTABLE →
        sampleEnv.CheckDDF
            { withArgs postState postArgs with
              stack := (withArgs postState postArgs).stack ++ [v] }
            (Descriptor.mk "big" 300) MAX_MESSAGE_DATA_SIZE 4 = Except.ok (data, n) →
        (Msg_Post sampleEnv (withArgs postState postArgs)).state.posted
          = (withArgs postState postArgs).posted
            ++ [{ sender := (Msg_Post.Header.mk ⟨0, 0, 0⟩ ⟨1, 3, 0⟩ 5).sender,
                  receiver := (Msg_Post.Header.mk ⟨0, 0, 0⟩ ⟨1, 3, 0⟩ 5).receiver,
                  message_id := (Msg_Post.Header.mk ⟨0, 0, 0⟩ ⟨1, 3, 0⟩ 5).message_id,
                  descriptor := some (Descriptor.mk "big" 300),
                  data := data, data_size := n }]) :=
  ⟨by decide, by decide,
    msg_post_size_check sampleEnv (withArgs postState postArgs) (withArgs postState postArgs)
      (Msg_Post.Header.mk ⟨0, 0, 0⟩ ⟨1, 3, 0⟩ 5) (Descriptor.mk "big" 300) (by decide)
      (header_of_strings sampleEnv (withArgs postState postArgs) "a:b" "abcd" ⟨1, 3, 0⟩
        (⟨0, 0, 0⟩, ⟨1, 3, 0⟩) (by decide) (by decide) (by decide) rfl (by decide))
      (by decide) (by decide)⟩

/-- The same call in a state whose globals hold neither a callback nor a
context: the process ends at the assertion on the callback, nothing is raised
and nothing is posted. -/
theorem msg_post_without_callback :
    Msg_Post sampleEnv (withArgs sampleState postArgs)
      = LuaResult.abort (withArgs sampleState postArgs) := by
  have hr : Msg_Post.receiver sampleEnv (withArgs sampleState postArgs)
      = LuaResult.ok ⟨1, 3, 0⟩ (withArgs sampleState postArgs) := by
    simp [Msg_Post.receiver, bind_apply, Lua.bind, getL,
      lua_isstring_of_string (withArgs sampleState postArgs) 2 "a:b" (by decide),
      lua_tostring, show index2adr (withArgs sampleState postArgs) 2
        = some (LuaValue.string "a:b") by decide, sampleEnv, pure_apply]
    decide
  have hu := urls_null_callback sampleEnv (withArgs sampleState postArgs) ⟨1, 3, 0⟩
    (by decide)
  simp only [Msg_Post, Msg_Post.header, bind_apply, Lua.bind, getL, hr, hu]

end dmScript

namespace dmScript

/-! ## `InitializeMsg` -/

theorem index2adr_pos (L : lua_State) (s xs : List LuaValue) (k : Nat) (h : L.stack = s ++ xs)
    (hl : k < xs.length) :
    index2adr L ((s.length : Int) + (k : Int) + 1) = xs.get? k := by
  unfold index2adr
  have h1 : ¬ ((s.length : Int) + (k : Int) + 1 = LUA_REGISTRYINDEX) := by
    unfold LUA_REGISTRYINDEX; omega
  have h2 : ¬ ((s.length : Int) + (k : Int) + 1 = LUA_GLOBALSINDEX) := by
    unfold LUA_GLOBALSINDEX; omega
  have h3 : stackPos L ((s.length : Int) + (k : Int) + 1) = some (s.length + k) := by
    unfold stackPos
    have h4 : (0 : Int) < (s.length : Int) + (k : Int) + 1 := by omega
    have h5 : ((s.length : Int) + (k : Int) + 1).toNat = s.length + k + 1 := by omega
    have h6 : s.length + k + 1 ≤ L.stack.length := by rw [h, List.length_append]; omega
    rw [if_pos h4, h5, if_pos h6]
    rfl
  rw [if_neg h1, if_neg h2, h3]
  simp only [h]
  exact get?_append_at s xs k

theorem index2adr_p1 (s xs : List LuaValue) (T : TableRef → LuaValue → LuaValue)
    (U : Nat → Userdata) (f : Nat) (p : List Posted) (h : 0 < xs.length) :
    index2adr ⟨s ++ xs, T, U, f, p⟩ ((s.length : Int) + 1) = xs.get? 0 := by
  have := index2adr_pos ⟨s ++ xs, T, U, f, p⟩ s xs 0 rfl h
  simpa using this

theorem index2adr_p2 (s xs : List LuaValue) (T : TableRef → LuaValue → LuaValue)
    (U : Nat → Userdata) (f : Nat) (p : List Posted) (h : 1 < xs.length) :
    index2adr ⟨s ++ xs, T, U, f, p⟩ ((s.length : Int) + 2) = xs.get? 1 := by
  have := index2adr_pos ⟨s ++ xs, T, U, f, p⟩ s xs 1 rfl h
  rw [show (s.length : Int) + ((1 : Nat) : Int) + 1 = (s.length : Int) + 2 by omega] at this
  exact this

set_option maxHeartbeats 1600000 in
theorem InitializeMsg_fresh (L : lua_State)
    (h1 : L.tables TableRef.registry (LuaValue.string "_LOADED") = LuaValue.nil)
    (h2 : L.tables TableRef.registry (LuaValue.string "url") = LuaValue.nil)
    (h3 : L.tables TableRef.globals (LuaValue.string "url") = LuaValue.nil)
    (h4 : L.tables TableRef.globals (LuaValue.string "msg") = LuaValue.nil) :
    ∃ L1 t, InitializeMsg L = LuaResult.ok () L1 ∧ L1.stack = L.stack ∧
      L1.posted = L.posted ∧
      L1.tables TableRef.registry (LuaValue.string "url") = LuaValue.table t := by
  simp [InitializeMsg, luaL_register, luaL_findtable, luaL_newmetatable, registerAll,
    URL_methods, URL_meta, ScriptMsg_methods, SCRIPT_TYPE_NAME_URL, SCRIPT_LIB_NAME,
    bind_apply, Lua.bind, pure_apply, getL, lua_pushvalue, lua_getfield, lua_setfield,
    lua_settable, lua_newtable, lua_pop, lua_remove, push, lua_isnil, lua_istable, lua_type,
    lua_gettop, rawset, luaL_error,
    index2adr_registry, index2adr_globals, h1, h2, h3, h4,
    List.append_assoc, List.singleton_append, List.cons_append, List.nil_append,
    index2adr_m1, index2adr_m2, index2adr_m3, index2adr_m4, stackPos_m2, eraseIdx_append_add,
    index2adr_p1, index2adr_p2,
    getLast?_append_one, getLast?_append_two, getLast?_append_three,
    dropLast_append_one, dropLast_append_two, dropLast_append_three,
    take_append_add, take_append_length, eraseIdx_append_length,
    LuaValue.tag, LUA_TNIL, LUA_TTABLE]

set_option maxHeartbeats 1600000 in
theorem InitializeMsg_loaded (L : lua_State) (n : Nat) (hn : n < L.fresh)
    (h1 : L.tables TableRef.registry (LuaValue.string "_LOADED")
      = LuaValue.table (TableRef.heap n))
    (h2 : L.tables TableRef.registry (LuaValue.string "url") = LuaValue.nil)
    (h3 : L.tables TableRef.globals (LuaValue.string "url") = LuaValue.nil)
    (h4 : L.tables TableRef.globals (LuaValue.string "msg") = LuaValue.nil)
    (h5 : L.tables (TableRef.heap n) (LuaValue.string "url") = LuaValue.nil)
    (h6 : L.tables (TableRef.heap n) (LuaValue.string "msg") = LuaValue.nil) :
    ∃ L1 t, InitializeMsg L = LuaResult.ok () L1 ∧ L1.stack = L.stack ∧
      L1.posted = L.posted ∧
      L1.tables TableRef.registry (LuaValue.string "url") = LuaValue.table t := by
  have e0 : n ≠ L.fresh := by omega
  have e1 : n ≠ L.fresh + 1 := by omega
  have e2 : n ≠ L.fresh + 1 + 1 := by omega
  simp [InitializeMsg, luaL_register, luaL_findtable, luaL_newmetatable, registerAll,
    URL_methods, URL_meta, ScriptMsg_methods, SCRIPT_TYPE_NAME_URL, SCRIPT_LIB_NAME,
    bind_apply, Lua.bind, pure_apply, getL, lua_pushvalue, lua_getfield, lua_setfield,
    lua_settable, lua_newtable, lua_pop, lua_remove, push, lua_isnil, lua_istable, lua_type,
    lua_gettop, rawset, luaL_error,
    index2adr_registry, index2adr_globals, h1, h2, h3, h4, h5, h6, e0, e1, e2,
    List.append_assoc, List.singleton_append, List.cons_append, List.nil_append,
    index2adr_m1, index2adr_m2, index2adr_m3, index2adr_m4, stackPos_m2, eraseIdx_append_add,
    index2adr_p1, index2adr_p2,
    getLast?_append_one, getLast?_append_two, getLast?_append_three,
    dropLast_append_one, dropLast_append_two, dropLast_append_three,
    take_append_add, take_append_length, eraseIdx_append_length,
    LuaValue.tag, LUA_TNIL, LUA_TTABLE]

/-- From a state in which the names `url` and `msg` are unused, `InitializeMsg`
returns, leaves the stack as it was (its assertion) and leaves a table under
`url` in the registry. -/
theorem InitializeMsg_spec (L : lua_State) (h : NamesFree L) :
    ∃ L1 t, InitializeMsg L = LuaResult.ok () L1 ∧ L1.stack = L.stack ∧
      L1.posted = L.posted ∧
      L1.tables TableRef.registry (LuaValue.string "url") = LuaValue.table t := by
  obtain ⟨h2, h3, h4, h1 | ⟨n, hn, h1, h5, h6⟩⟩ := h
  · exact InitializeMsg_fresh L h1 h2 h3 h4
  · exact InitializeMsg_loaded L n hn h1 h2 h3 h4 h5 h6

/-! ## `PushURL` and `CheckURL` -/

theorem IsURL_of_pushed (L : lua_State) (u : URL) (t : TableRef)
    (hreg : L.tables TableRef.registry (LuaValue.string "url") = LuaValue.table t) :
    IsURL (-1)
        { L with
          stack := L.stack ++ [LuaValue.userdata L.fresh]
          udata := fun r => if r = L.fresh then { url := u, metatable := some t } else L.udata r
          fresh := L.fresh + 1 }
      = LuaResult.ok true
        { L with
          stack := L.stack ++ [LuaValue.userdata L.fresh]
          udata := fun r => if r = L.fresh then { url := u, metatable := some t } else L.udata r
          fresh := L.fresh + 1 } := by
  simp [IsURL, bind_apply, Lua.bind, getL, lua_touserdata, lua_getmetatable, lua_getfield,
    index2adr_registry, index2adr_m1, index2adr_m2, lua_rawequal, lua_pop, pure_apply, hreg,
    SCRIPT_TYPE_NAME_URL, take_append_add, take_append_length]

theorem CheckURL_of_pushed (L : lua_State) (u : URL) (t : TableRef)
    (hreg : L.tables TableRef.registry (LuaValue.string "url") = LuaValue.table t) :
    CheckURL (-1)
        { L with
          stack := L.stack ++ [LuaValue.userdata L.fresh]
          udata := fun r => if r = L.fresh then { url := u, metatable := some t } else L.udata r
          fresh := L.fresh + 1 }
      = LuaResult.ok L.fresh
        { L with
          stack := L.stack ++ [LuaValue.userdata L.fresh]
          udata := fun r => if r = L.fresh then { url := u, metatable := some t } else L.udata r
          fresh := L.fresh + 1 } := by
  refine CheckURL_of_url _ (-1) L.fresh t ?_ ?_ hreg
  · rw [index2adr_m1 _ _ _ _ _ _ (by simp)]
    rfl
  · simp

/-- C14: from a state in which the names `url` and `msg` are unused,
`InitializeMsg` returns and leaves the URL metatable in the registry; in every
state that has this metatable there, for every URL `u`, `PushURL` returns with
the stack one higher, `IsURL(L, -1)` is then true and `CheckURL(L, -1)` returns
a URL whose socket, path and fragment are those of `u`, both leaving the state
as it is. -/
theorem push_check_url_round_trip (L0 : lua_State) (h : NamesFree L0) :
    ∃ L1 t, InitializeMsg L0 = LuaResult.ok () L1 ∧
      L1.tables TableRef.registry (LuaValue.string "url") = LuaValue.table t ∧
      ∀ (L : lua_State),
        L.tables TableRef.registry (LuaValue.string "url") = LuaValue.table t →
        ∀ u : URL, ∃ L2, PushURL u L = LuaResult.ok () L2 ∧
          lua_gettop L2 = lua_gettop L + 1 ∧
          IsURL (-1) L2 = LuaResult.ok true L2 ∧
          ∃ p, CheckURL (-1) L2 = LuaResult.ok p L2 ∧
            (readURL L2 p).m_Socket = u.m_Socket ∧
            (readURL L2 p).m_Path = u.m_Path ∧
            (readURL L2 p).m_Fragment = u.m_Fragment := by
  obtain ⟨L1, t, hinit, _, _, hreg⟩ := InitializeMsg_spec L0 h
  refine ⟨L1, t, hinit, hreg, ?_⟩
  intro L hL u
  refine ⟨_, PushURL_spec L u t hL, ?_, IsURL_of_pushed L u t hL, L.fresh,
    CheckURL_of_pushed L u t hL, ?_, ?_, ?_⟩
  · simp [lua_gettop]
  · simp [readURL]
  · simp [readURL]
  · simp [readURL]

/-- The state `lua_open` returns has the names unused. -/
theorem push_check_url_round_trip_witness :
    NamesFree lua_open ∧
    ∃ L1 t, InitializeMsg lua_open = LuaResult.ok () L1 ∧
      L1.tables TableRef.registry (LuaValue.string "url") = LuaValue.table t ∧
      ∀ (L : lua_State),
        L.tables TableRef.registry (LuaValue.string "url") = LuaValue.table t →
        ∀ u : URL, ∃ L2, PushURL u L = LuaResult.ok () L2 ∧
          lua_gettop L2 = lua_gettop L + 1 ∧
          IsURL (-1) L2 = LuaResult.ok true L2 ∧
          ∃ p, CheckURL (-1) L2 = LuaResult.ok p L2 ∧
            (readURL L2 p).m_Socket = u.m_Socket ∧
            (readURL L2 p).m_Path = u.m_Path ∧
            (readURL L2 p).m_Fragment = u.m_Fragment :=
  ⟨⟨rfl, rfl, rfl, Or.inl rfl⟩,
    push_check_url_round_trip lua_open ⟨rfl, rfl, rfl, Or.inl rfl⟩⟩

end dmScript
